import Mathlib

/-!
Shallow embedding of src/reader-companion.py, restricted to the request
construction, context-strategy and caching logic, the upload protocol, the
worker error handling, and the orchestrator state transitions.  External
effects (the filesystem, the network, the environment) are passed in as
explicit oracle values; everything else is translated from the source line
by line.
-/

namespace ReaderCo

/-- JSON-like values, as produced by parsing a response body or written as a
dict literal in the script. -/
inductive JValue where
  | str (s : String)
  | nat (n : Nat)
  | bool (b : Bool)
  | arr (elems : List JValue)
  | obj (fields : List (String × JValue))
deriving Repr, BEq

/-- Python exceptions raised by subscripting a parsed JSON value:
KeyError for a missing dict key, IndexError for an out-of-range list
index, TypeError for subscripting a value of the wrong shape. -/
inductive PyErr where
  | keyError (k : String)
  | indexError
  | typeError
deriving Repr, BEq, DecidableEq

/-- Python d[k] on a parsed JSON value: KeyError when the key is absent,
TypeError when the value is not a dict. -/
def jGet (v : JValue) (k : String) : Except PyErr JValue :=
  match v with
  | .obj fields =>
    match fields.lookup k with
    | some x => .ok x
    | none => .error (.keyError k)
  | _ => .error .typeError

/-- Python xs[i] on a parsed JSON value: IndexError when out of range,
TypeError when the value is not a list. -/
def jIdx (v : JValue) (i : Nat) : Except PyErr JValue :=
  match v with
  | .arr elems =>
    match elems.get? i with
    | some x => .ok x
    | none => .error .indexError
  | _ => .error .typeError

/-- Python truthiness of a parsed JSON value. -/
def JValue.pyTruthy : JValue → Bool
  | .str s => !s.isEmpty
  | .nat n => n != 0
  | .bool b => b
  | .arr elems => !elems.isEmpty
  | .obj fields => !fields.isEmpty

/-- Truthiness of an optional Python list (None and the empty list are
falsy). -/
def optListPyTruthy : Option (List String) → Bool
  | none => false
  | some xs => !xs.isEmpty

/-- Truthiness of an optional JSON value (None is falsy, otherwise Python
truthiness of the value). -/
def optJPyTruthy : Option JValue → Bool
  | none => false
  | some v => v.pyTruthy

/-- One conversation turn as stored in self.history: a dict with keys
role and text (lines 303-304 of the source). -/
structure Turn where
  role : String
  text : String
deriving Repr, BEq, DecidableEq

/-- An HTTP response as the script observes it: the numeric status, the
response headers, and the result of parsing the body as JSON (none when
the body is not valid JSON, in which case a json call raises
JSONDecodeError). -/
structure HttpResponse where
  status : Nat
  headers : List (String × String)
  jsonBody : Option JValue
deriving Repr, BEq

/-- httpx response.is_success: a 2xx status.  raise_for_status raises
HTTPStatusError, a subclass of httpx.HTTPError, exactly when this is
false. -/
def HttpResponse.isSuccess (r : HttpResponse) : Bool :=
  200 ≤ r.status && r.status < 300

/-- Observable events of one send, in program order: environment reads,
invocations of the extractor and the uploader, network posts, JSON body
parses and status-check raises. -/
inductive Ev where
  | envRead
  | extractPages
  | uploadPdf
  | postGenerate
  | postUploadStart
  | postUploadBytes (payload : List Nat)
  | parseJsonGen
  | parseJsonUpload2
  | raiseStatusGen
  | raiseStatusUpload1
  | raiseStatusUpload2
deriving Repr, BEq, DecidableEq

/-- The base64 alphabet (RFC 4648), as used by base64.b64encode. -/
def b64Char (n : Nat) : Char :=
  ("ABCDEFGHIJKLMNOPQRSTUVWXYZabcdefghijklmnopqrstuvwxyz0123456789+/".toList).getD n 'A'

/-- Standard base64 encoding of a byte sequence, with padding, as
performed by base64.b64encode. -/
def b64encode : List Nat → List Char
  | [] => []
  | [a] => [b64Char (a / 4), b64Char (a % 4 * 16), '=', '=']
  | [a, b] => [b64Char (a / 4), b64Char (a % 4 * 16 + b / 16), b64Char (b % 16 * 4), '=']
  | a :: b :: c :: rest =>
    b64Char (a / 4) :: b64Char (a % 4 * 16 + b / 16) ::
      b64Char (b % 16 * 4 + c / 64) :: b64Char (c % 64) :: b64encode rest

/-- Lines 177-179: get_pdf_bytes opens the document, reads its bytes and
returns base64.b64encode of them, decoded to a str.  The file content is
supplied as the byte list the read returns. -/
def get_pdf_bytes (fileContent : List Nat) : String :=
  String.mk (b64encode fileContent)

/-- Lines 18-25: the pydantic settings model.  The send_pdf field is a
Literal of four strings; its validation is modelled separately by
sendPdfAccepted. -/
structure AppSettings where
  model : String := "gemini-1.5-flash"
  max_output_tokens : Nat := 1000
  history : Bool := false
  send_pdf : String := "whole_images"
  system_prompt_no_whole_pdf : String
  system_prompt_whole_pdf : String
  font_size : Nat := 12
deriving Repr, BEq, DecidableEq

/-- Line 22: pydantic validation of the send_pdf field of the settings
JSON document.  A Literal of string values accepts exactly those strings
and rejects every other JSON value, including the boolean false. -/
def sendPdfAccepted : JValue → Bool
  | .str s => ["whole_images", "whole_pdf", "single_page", "false"].contains s
  | _ => false

/-- Lines 27-38: the Gemini client object after construction. -/
structure Gemini where
  model : String
  system_prompt : String
  max_output_tokens : Nat
  api_key : String
deriving Repr, BEq, DecidableEq

/-- Lines 28-38: the Gemini constructor.  It stores its arguments and
reads the environment variable GEMINI_API_KEY; when the variable is
unset the subscript raises KeyError.  The trace records the environment
read. -/
def Gemini.init (model system_prompt : String) (max_output_tokens : Nat)
    (env : String → Option String) : Except String Gemini × List Ev :=
  match env "GEMINI_API_KEY" with
  | none => (.error "KeyError GEMINI_API_KEY", [.envRead])
  | some k =>
    (.ok ⟨model, system_prompt, max_output_tokens, k⟩, [.envRead])

/-- Lines 54-60: one inline image part, mime type fixed as image/png. -/
def inlineImagePart (pix : String) : JValue :=
  .obj [("inline_data", .obj [("mime_type", .str "image/png"), ("data", .str pix)])]

/-- Lines 62-68: the file reference part, mime type fixed as
application/pdf. -/
def fileDataPart (uri : JValue) : JValue :=
  .obj [("file_data", .obj [("mime_type", .str "application/pdf"), ("file_uri", uri)])]

/-- Line 69: the text part holding the literal query string. -/
def textPart (q : String) : JValue :=
  .obj [("text", .str q)]

/-- Lines 52-60: one inline image part per cached page image.  The guard
if images skips None; an empty list produces no parts either way. -/
def imageParts : Option (List String) → List JValue
  | none => []
  | some pixs => pixs.map inlineImagePart

/-- Lines 61-68: the file reference part is appended when the uri value
is truthy (None and falsy values are skipped by the if guard). -/
def filePartList : Option JValue → List JValue
  | none => []
  | some v => if v.pyTruthy then [fileDataPart v] else []

/-- Lines 51-69: the parts of the current user turn, in program order:
image parts, then the file part, then exactly one text part. -/
def currentParts (query : String) (images : Option (List String))
    (uri : Option JValue) : List JValue :=
  imageParts images ++ filePartList uri ++ [textPart query]

/-- Lines 48-50: each prior history turn becomes one entry with its role
and a single text part.  The if history guard skips None; an empty list
contributes no entries either way. -/
def historyContents : Option (List Turn) → List JValue
  | none => []
  | some hs =>
    hs.map fun h => JValue.obj [("role", .str h.role), ("parts", .arr [textPart h.text])]

/-- Lines 47-79: the JSON body Gemini.send builds: history entries, then
the current user turn, wrapped with the generation configuration and the
system instruction. -/
def Gemini.requestData (g : Gemini) (query : String) (images : Option (List String))
    (uri : Option JValue) (history : Option (List Turn)) : JValue :=
  .obj [
    ("generationConfig", .obj [("max_output_tokens", .nat g.max_output_tokens)]),
    ("system_instruction", .obj [("parts", .obj [("text", .str g.system_prompt)])]),
    ("contents", .arr (historyContents history ++
      [JValue.obj [("role", .str "user"), ("parts", .arr (currentParts query images uri))]]))
  ]

/-- Line 80: the endpoint URL with the API key attached as a query
credential. -/
def Gemini.requestUrl (g : Gemini) : String :=
  "https://generativelanguage.googleapis.com/v1beta/models/" ++ g.model ++
    ":generateContent?key=" ++ g.api_key

/-- Errors a call to Gemini.send can raise: httpx.HTTPError covers both a
failed request and a raise_for_status on a non-success status; the debug
print on line 83 parses the body and can raise JSONDecodeError. -/
inductive SendErr where
  | transport (msg : String)
  | jsonDecode
deriving Repr, BEq, DecidableEq

/-- Lines 82-85 of Gemini.send: post the request, then the debug print
parses the response body as JSON, then raise_for_status checks the
status.  The network outcome is an oracle: none models httpx raising a
transport error on the post itself.  Returns the parsed body of the
response on success (the caller immediately calls json on it, line 117),
with the trace of network and parse events in program order. -/
def Gemini.sendOutcome (netResp : Option HttpResponse) :
    Except SendErr JValue × List Ev :=
  match netResp with
  | none => (.error (.transport "httpx request error"), [.postGenerate])
  | some r =>
    match r.jsonBody with
    | none => (.error .jsonDecode, [.postGenerate, .parseJsonGen])
    | some body =>
      if r.isSuccess then (.ok body, [.postGenerate, .parseJsonGen])
      else (.error (.transport "HTTPStatusError"), [.postGenerate, .parseJsonGen, .raiseStatusGen])

/-- Lines 91-104: the worker thread object and its inputs. -/
structure GeminiWorker where
  query : String
  pdf_images : Option (List String)
  pdf_uploaded_file_uri : Option JValue
  app_settings : AppSettings
  history : Option (List Turn)

/-- Lines 109-113: the system prompt chosen for the worker run: the
whole-pdf prompt when send_pdf is whole_images or whole_pdf, otherwise
the no-whole-pdf prompt. -/
def systemPromptFor (s : AppSettings) : String :=
  if s.send_pdf == "whole_images" || s.send_pdf == "whole_pdf" then
    s.system_prompt_whole_pdf
  else
    s.system_prompt_no_whole_pdf

/-- Line 122: the subscript chain candidates 0 content parts 0 text on
the parsed response body. -/
def candidateText (body : JValue) : Except PyErr JValue := do
  let cs ← jGet body "candidates"
  let c0 ← jIdx cs 0
  let content ← jGet c0 "content"
  let parts ← jGet content "parts"
  let p0 ← jIdx parts 0
  jGet p0 "text"

/-- What one worker run delivers: a response_received signal (query and
answer text), an error_occurred signal (the error message shown to the
user), or an exception that escapes run uncaught. -/
inductive WorkerOutcome where
  | responded (query text : String)
  | errored (msg : String)
  | crashed (msg : String)
deriving Repr, BEq, DecidableEq

/-- Lines 116-125: the body of the two try blocks of GeminiWorker.run,
given the result of the send.  The first try catches httpx.HTTPError and
JSONDecodeError from the send (emitting error_occurred); the second try
catches KeyError and IndexError from the candidate path, but a TypeError
from subscripting a non-dict or non-list body escapes uncaught. -/
def workerHandle (query : String) (res : Except SendErr JValue) : WorkerOutcome :=
  match res with
  | .error (.transport m) => .errored ("ERROR httpx.HTTPError " ++ m)
  | .error .jsonDecode => .errored "ERROR json.decoder.JSONDecodeError"
  | .ok body =>
    match candidateText body with
    | .ok (.str t) => .responded query t
    | .ok _ => .crashed "TypeError emit"
    | .error (.keyError k) => .errored ("ERROR KeyError " ++ k)
    | .error .indexError => .errored "ERROR IndexError"
    | .error .typeError => .crashed "TypeError subscript"

/-- Lines 106-125: GeminiWorker.run.  The Gemini constructor runs before
the try block, so its KeyError is uncaught; then the send runs and its
result is handled by the two try blocks. -/
def GeminiWorker.run (w : GeminiWorker) (env : String → Option String)
    (netResp : Option HttpResponse) : WorkerOutcome × List Ev :=
  match Gemini.init w.app_settings.model (systemPromptFor w.app_settings)
      w.app_settings.max_output_tokens env with
  | (.error e, tr) => (.crashed e, tr)
  | (.ok _, tr) =>
    (workerHandle w.query (Gemini.sendOutcome netResp).1,
      tr ++ (Gemini.sendOutcome netResp).2)

/-- Exceptions upload_pdf_to_goole can raise.  None of them is caught
anywhere: the caller send_to_gemini has no handler. -/
inductive UpErr where
  | envKeyError
  | docAccess (msg : String)
  | transport (msg : String)
  | headerKeyError
  | jsonDecode
  | uriPathError
deriving Repr, BEq, DecidableEq

/-- httpx response.headers subscript; the keys are case-insensitive and
modelled lowercase. -/
def headerLookup (hs : List (String × String)) (k : String) : Option String :=
  hs.lookup k

/-- Lines 161-162: the subscript chain file uri on the parsed finalize
body. -/
def fileUriOf (d : JValue) : Except PyErr JValue := do
  let f ← jGet d "file"
  jGet f "uri"

/-- Lines 127-163: upload_pdf_to_goole.  In program order: read the
environment variable, read the file bytes, post the resumable start
request, raise_for_status, read the x-goog-upload-url header, post the
raw bytes, raise_for_status, parse the finalize body as JSON and extract
file uri.  The two network outcomes are oracles (none models httpx
raising on the post itself); the file content is the oracle for the open
and read on lines 129-130. -/
def upload_pdf_to_goole (env : String → Option String)
    (fileBytes : Except String (List Nat))
    (resp1 resp2 : Option HttpResponse) : Except UpErr JValue × List Ev :=
  match env "GEMINI_API_KEY" with
  | none => (.error .envKeyError, [.envRead])
  | some _ =>
    match fileBytes with
    | .error m => (.error (.docAccess m), [.envRead])
    | .ok bs =>
      match resp1 with
      | none => (.error (.transport "httpx request error"), [.envRead, .postUploadStart])
      | some r1 =>
        if r1.isSuccess then
          match headerLookup r1.headers "x-goog-upload-url" with
          | none => (.error .headerKeyError, [.envRead, .postUploadStart])
          | some _ =>
            match resp2 with
            | none =>
              (.error (.transport "httpx request error"),
                [.envRead, .postUploadStart, .postUploadBytes bs])
            | some r2 =>
              if r2.isSuccess then
                match r2.jsonBody with
                | none =>
                  (.error .jsonDecode,
                    [.envRead, .postUploadStart, .postUploadBytes bs, .parseJsonUpload2])
                | some d =>
                  match fileUriOf d with
                  | .ok uri =>
                    (.ok uri,
                      [.envRead, .postUploadStart, .postUploadBytes bs, .parseJsonUpload2])
                  | .error _ =>
                    (.error .uriPathError,
                      [.envRead, .postUploadStart, .postUploadBytes bs, .parseJsonUpload2])
              else
                (.error (.transport "HTTPStatusError"),
                  [.envRead, .postUploadStart, .postUploadBytes bs, .raiseStatusUpload2])
        else
          (.error (.transport "HTTPStatusError"),
            [.envRead, .postUploadStart, .raiseStatusUpload1])

/-- Lines 189-191: the mutable session state owned by the orchestrator:
the page image cache, the uploaded file reference, and the conversation
history. -/
structure RCState where
  pdf_images : Option (List String)
  pdf_uploaded_file_uri : Option JValue
  history : Option (List Turn)
deriving Repr, BEq

/-- Lines 189-191: all three fields start as None. -/
def RCState.init : RCState :=
  ⟨none, none, none⟩

/-- The fixed external collaborators of one session: the process
environment, the content the document file read returns, and the page
images fitz extracts from the fixed document. -/
structure World where
  env : String → Option String
  fileBytes : Except String (List Nat)
  pageImages : Except String (List String)

/-- The per-send external inputs: the freshly read settings, the query
text in the input box, and the network outcomes of the upload start, the
byte transfer, and the generation call. -/
structure SendInput where
  settings : AppSettings
  query : String
  upResp1 : Option HttpResponse
  upResp2 : Option HttpResponse
  genResp : Option HttpResponse

/-- How one user-initiated send ends: the answer displayed via
handle_gemini_response, an error message displayed via
handle_gemini_error, or an exception nothing catches. -/
inductive Outcome where
  | success (query answer : String)
  | renderedError (msg : String)
  | uncaught (msg : String)
deriving Repr, BEq, DecidableEq

/-- Lines 275-282: the image cache adjustment.  Under whole_images a
falsy cache is refilled by get_pdf_images (whose failure is an uncaught
exception, reported in the third component); under any other strategy
the cache is set to None. -/
def imagesPhase (w : World) (sp : String) (st : RCState) :
    RCState × List Ev × Option String :=
  if sp == "whole_images" then
    if optListPyTruthy st.pdf_images then (st, [], none)
    else
      match w.pageImages with
      | .ok imgs => ({ st with pdf_images := some imgs }, [.extractPages], none)
      | .error m => (st, [.extractPages], some ("fitz error " ++ m))
  else ({ st with pdf_images := none }, [], none)

/-- Lines 283-288: the uploaded file reference adjustment.  Under
whole_pdf a falsy reference is refilled by upload_pdf_to_goole (whose
failure is an uncaught exception); under any other strategy the
reference is set to None. -/
def uploadPhase (w : World) (inp : SendInput) (st : RCState) :
    RCState × List Ev × Option String :=
  if inp.settings.send_pdf == "whole_pdf" then
    if optJPyTruthy st.pdf_uploaded_file_uri then (st, [], none)
    else
      match upload_pdf_to_goole w.env w.fileBytes inp.upResp1 inp.upResp2 with
      | (.ok uri, tr) => ({ st with pdf_uploaded_file_uri := some uri }, .uploadPdf :: tr, none)
      | (.error _, tr) => (st, .uploadPdf :: tr, some "upload error")
  else ({ st with pdf_uploaded_file_uri := none }, [], none)

/-- Lines 289-293: the history adjustment.  When enabled, a falsy
history becomes the empty list; when disabled, the history is set to
None. -/
def historyPhase (enabled : Bool) (st : RCState) : RCState :=
  if enabled then
    match st.history with
    | none => { st with history := some [] }
    | some hs => if hs.isEmpty then { st with history := some [] } else st
  else { st with history := none }

/-- Lines 300-304: handle_gemini_response displays the answer and, when
the history is not None, appends the user turn holding the query and the
model turn holding the answer. -/
def handle_gemini_response (query text : String) (st : RCState) : RCState :=
  match st.history with
  | none => st
  | some hs => { st with history := some (hs ++ [⟨"user", query⟩, ⟨"model", text⟩]) }

/-- Lines 306-307: handle_gemini_error only writes the error text to the
output widget; the session state is untouched. -/
def handle_gemini_error (st : RCState) : RCState :=
  st

/-- Lines 272-298 plus the completion callbacks: one user-initiated
send.  The three adjustment phases run in source order on the
interactive thread; an exception in a phase aborts the send uncaught
with the state as mutated so far.  Then the worker runs with the
adjusted state as its read-only inputs, and its signal is handled by
handle_gemini_response or handle_gemini_error. -/
def sendStep (w : World) (inp : SendInput) (st : RCState) :
    RCState × List Ev × Outcome :=
  match imagesPhase w inp.settings.send_pdf st with
  | (st1, tr1, some m) => (st1, tr1, .uncaught m)
  | (st1, tr1, none) =>
    match uploadPhase w inp st1 with
    | (st2, tr2, some m) => (st2, tr1 ++ tr2, .uncaught m)
    | (st2, tr2, none) =>
      let st3 := historyPhase inp.settings.history st2
      let worker : GeminiWorker :=
        ⟨inp.query, st3.pdf_images, st3.pdf_uploaded_file_uri, inp.settings, st3.history⟩
      match worker.run w.env inp.genResp with
      | (.responded q t, tr3) =>
        (handle_gemini_response q t st3, tr1 ++ tr2 ++ tr3, .success q t)
      | (.errored m, tr3) => (handle_gemini_error st3, tr1 ++ tr2 ++ tr3, .renderedError m)
      | (.crashed m, tr3) => (st3, tr1 ++ tr2 ++ tr3, .uncaught m)

/-- A sequence of user-initiated sends under the single-in-flight model:
each send completes, including its callback, before the next begins. -/
def runSends (w : World) (inps : List SendInput) (st : RCState) :
    RCState × List Ev × List Outcome :=
  match inps with
  | [] => (st, [], [])
  | i :: rest =>
    match sendStep w i st with
    | (st1, tr, out) =>
      match runSends w rest st1 with
      | (st2, tr2, outs) => (st2, tr ++ tr2, out :: outs)

/-- Lines 182-226 and 317-323: process startup.  The constructor reads
the settings file, builds the widgets, restores the window geometry and
loads the viewer, then the window is shown; no line of it consults the
environment for the API key, so startup succeeds whether or not the
credential is present, failing only if the settings document itself does
not load. -/
def startup (_env : String → Option String)
    (settingsDoc : Except String AppSettings) : Except String RCState :=
  match settingsDoc with
  | .error m => .error m
  | .ok _ => .ok RCState.init

/-- Count of one event in a trace. -/
def countEv (tr : List Ev) (e : Ev) : Nat :=
  tr.countP fun x => decide (x = e)

/-- The list a falsy-or-absent history is treated as (lines 290-291). -/
def histBase : Option (List Turn) → List Turn
  | none => []
  | some hs => hs

/-- The session state after the three adjustment phases of one send,
before the worker is dispatched (lines 275-293). -/
def adjustedState (w : World) (inp : SendInput) (st : RCState) : RCState :=
  historyPhase inp.settings.history
    (uploadPhase w inp (imagesPhase w inp.settings.send_pdf st).1).1

/-- Line 295: the worker constructed for one send, reading the adjusted
session state. -/
def workerOf (inp : SendInput) (st3 : RCState) : GeminiWorker :=
  ⟨inp.query, st3.pdf_images, st3.pdf_uploaded_file_uri, inp.settings, st3.history⟩

/-- Lines 300-304 as an output predicate: whether an outcome is an
exception nothing caught (as opposed to a handled signal). -/
def Outcome.isUncaught : Outcome → Bool
  | .uncaught _ => true
  | _ => false

/-- The history entries N successful sends accumulate: one user turn
holding each query followed by one model turn holding its answer,
in chronological order. -/
def turnsOf (qas : List (String × String)) : List Turn :=
  (qas.map fun p => [Turn.mk "user" p.1, Turn.mk "model" p.2]).flatten

/-! ### Concrete fixtures used by witnesses and counterexamples -/

/-- An environment holding the API key. -/
def envWithKey : String → Option String :=
  fun k => if k = "GEMINI_API_KEY" then some "K" else none

/-- An environment in which GEMINI_API_KEY is unset. -/
def envEmpty : String → Option String :=
  fun _ => none

/-- A settings value with the two required prompt fields filled in. -/
def baseSettings : AppSettings :=
  { system_prompt_no_whole_pdf := "NP", system_prompt_whole_pdf := "WP" }

/-- A well-formed generation response body with one candidate whose
first part holds the text hi. -/
def goodBody : JValue :=
  .obj [("candidates", .arr
    [.obj [("content", .obj [("parts", .arr [.obj [("text", .str "hi")]])])]])]

/-- A successful generation response. -/
def okResp : HttpResponse :=
  ⟨200, [], some goodBody⟩

/-- A successful resumable-start response carrying the follow-up upload
URL header. -/
def startResp : HttpResponse :=
  ⟨200, [("x-goog-upload-url", "https://upload.example/session")], none⟩

/-- A successful finalize response whose body carries the file uri. -/
def finalizeResp : HttpResponse :=
  ⟨200, [], some (.obj [("file", .obj [("uri", .str "files/abc123")])])⟩

/-- A session world whose environment lacks the credential. -/
def worldNoKey : World :=
  ⟨envEmpty, .ok [0], .ok ["i"]⟩

/-- A session world with the credential, a one-byte document, and one
page image. -/
def worldKeyed : World :=
  ⟨envWithKey, .ok [0], .ok ["i"]⟩

/-- A send input under the no-context strategy false with a successful
generation response. -/
def inpFalse : SendInput :=
  ⟨{ baseSettings with send_pdf := "false" }, "q", none, none, some okResp⟩

/-- A send input under the whole_images strategy with a successful
generation response. -/
def inpImages : SendInput :=
  ⟨{ baseSettings with send_pdf := "whole_images" }, "q", none, none, some okResp⟩

/-- A send input under the whole_pdf strategy with successful upload
responses and a successful generation response. -/
def inpPdf : SendInput :=
  ⟨{ baseSettings with send_pdf := "whole_pdf" }, "q", some startResp, some finalizeResp,
    some okResp⟩

/-- A send input under the single_page strategy with history enabled. -/
def inpSingle : SendInput :=
  ⟨{ baseSettings with send_pdf := "single_page", history := true }, "q", none, none,
    some okResp⟩

/-- A send input under whole_images whose generation call fails at the
network layer. -/
def inpImagesNoNet : SendInput :=
  ⟨{ baseSettings with send_pdf := "whole_images" }, "q", none, none, none⟩

/-- A send input under whole_pdf whose upload start fails at the network
layer. -/
def inpPdfNoNet : SendInput :=
  ⟨{ baseSettings with send_pdf := "whole_pdf" }, "q", none, none, some okResp⟩

/-- A session world whose document cannot be opened by the extractor. -/
def worldBadDoc : World :=
  ⟨envWithKey, .ok [0], .error "cannot open document"⟩

/-- A no-context send input with history enabled and a successful
generation response. -/
def inpFalseHist : SendInput :=
  ⟨{ baseSettings with send_pdf := "false", history := true }, "q", none, none, some okResp⟩

/-- A no-context send input with history enabled whose generation call
fails at the network layer. -/
def inpFalseHistFail : SendInput :=
  ⟨{ baseSettings with send_pdf := "false", history := true }, "q", none, none, none⟩

/-- A session state with two prior history entries. -/
def stPrior : RCState :=
  ⟨none, none, some [⟨"user", "x"⟩, ⟨"model", "y"⟩]⟩

/-! ### Helper lemmas about the embedding -/

theorem countEv_append (a b : List Ev) (e : Ev) :
    countEv (a ++ b) e = countEv a e + countEv b e := by
  unfold countEv
  exact List.countP_append _ _ _

theorem countEv_eq_zero (tr : List Ev) (e : Ev) (h : e ∉ tr) : countEv tr e = 0 := by
  unfold countEv
  rw [List.countP_eq_zero]
  intro a ha
  simp only [decide_eq_true_eq]
  rintro rfl
  exact h ha

theorem historyPhase_pdf_images (e : Bool) (st : RCState) :
    (historyPhase e st).pdf_images = st.pdf_images := by
  unfold historyPhase
  cases e with
  | false => rfl
  | true =>
    cases h : st.history with
    | none => rfl
    | some hs => cases hs <;> rfl

theorem historyPhase_pdf_uri (e : Bool) (st : RCState) :
    (historyPhase e st).pdf_uploaded_file_uri = st.pdf_uploaded_file_uri := by
  unfold historyPhase
  cases e with
  | false => rfl
  | true =>
    cases h : st.history with
    | none => rfl
    | some hs => cases hs <;> rfl

theorem handleResp_pdf_images (q t : String) (st : RCState) :
    (handle_gemini_response q t st).pdf_images = st.pdf_images := by
  unfold handle_gemini_response
  cases st.history <;> rfl

theorem handleResp_pdf_uri (q t : String) (st : RCState) :
    (handle_gemini_response q t st).pdf_uploaded_file_uri = st.pdf_uploaded_file_uri := by
  unfold handle_gemini_response
  cases st.history <;> rfl

theorem imagesPhase_pdf_uri (w : World) (sp : String) (st : RCState) :
    (imagesPhase w sp st).1.pdf_uploaded_file_uri = st.pdf_uploaded_file_uri := by
  unfold imagesPhase
  split
  · split
    · rfl
    · cases w.pageImages <;> rfl
  · rfl

theorem imagesPhase_history (w : World) (sp : String) (st : RCState) :
    (imagesPhase w sp st).1.history = st.history := by
  unfold imagesPhase
  split
  · split
    · rfl
    · cases w.pageImages <;> rfl
  · rfl

theorem uploadPhase_pdf_images (w : World) (inp : SendInput) (st : RCState) :
    (uploadPhase w inp st).1.pdf_images = st.pdf_images := by
  unfold uploadPhase
  split
  · split
    · rfl
    · rcases h : upload_pdf_to_goole w.env w.fileBytes inp.upResp1 inp.upResp2 with ⟨res, tr⟩
      cases res <;> rfl
  · rfl

theorem uploadPhase_history (w : World) (inp : SendInput) (st : RCState) :
    (uploadPhase w inp st).1.history = st.history := by
  unfold uploadPhase
  split
  · split
    · rfl
    · rcases h : upload_pdf_to_goole w.env w.fileBytes inp.upResp1 inp.upResp2 with ⟨res, tr⟩
      cases res <;> rfl
  · rfl

theorem sendOutcome_no_envRead (net : Option HttpResponse) :
    Ev.envRead ∉ (Gemini.sendOutcome net).2 := by
  intro h
  unfold Gemini.sendOutcome at h
  repeat' split at h
  all_goals simp at h

theorem sendOutcome_no_extract (net : Option HttpResponse) :
    Ev.extractPages ∉ (Gemini.sendOutcome net).2 := by
  intro h
  unfold Gemini.sendOutcome at h
  repeat' split at h
  all_goals simp at h

theorem sendOutcome_no_uploadPdf (net : Option HttpResponse) :
    Ev.uploadPdf ∉ (Gemini.sendOutcome net).2 := by
  intro h
  unfold Gemini.sendOutcome at h
  repeat' split at h
  all_goals simp at h

theorem sendOutcome_no_postUploadBytes (net : Option HttpResponse) (bs : List Nat) :
    Ev.postUploadBytes bs ∉ (Gemini.sendOutcome net).2 := by
  intro h
  unfold Gemini.sendOutcome at h
  repeat' split at h
  all_goals simp at h

theorem isSuccess_false_of_ge400 (r : HttpResponse) (h : 400 ≤ r.status) :
    r.isSuccess = false := by
  unfold HttpResponse.isSuccess
  have : ¬(r.status < 300) := by omega
  simp [this]

theorem workerRun_env_none (w : GeminiWorker) (env : String → Option String)
    (net : Option HttpResponse) (h : env "GEMINI_API_KEY" = none) :
    w.run env net = (.crashed "KeyError GEMINI_API_KEY", [.envRead]) := by
  unfold GeminiWorker.run Gemini.init
  rw [h]

theorem workerRun_env_some (w : GeminiWorker) (env : String → Option String)
    (net : Option HttpResponse) (k : String) (h : env "GEMINI_API_KEY" = some k) :
    w.run env net
      = (workerHandle w.query (Gemini.sendOutcome net).1,
         .envRead :: (Gemini.sendOutcome net).2) := by
  unfold GeminiWorker.run Gemini.init
  rw [h]
  rfl

theorem workerRun_no_extract (w : GeminiWorker) (env : String → Option String)
    (net : Option HttpResponse) :
    Ev.extractPages ∉ (w.run env net).2 := by
  intro h
  cases hk : env "GEMINI_API_KEY" with
  | none =>
    rw [workerRun_env_none w env net hk] at h
    simp at h
  | some k =>
    rw [workerRun_env_some w env net k hk] at h
    simp at h
    exact sendOutcome_no_extract net h

theorem workerRun_no_uploadPdf (w : GeminiWorker) (env : String → Option String)
    (net : Option HttpResponse) :
    Ev.uploadPdf ∉ (w.run env net).2 := by
  intro h
  cases hk : env "GEMINI_API_KEY" with
  | none =>
    rw [workerRun_env_none w env net hk] at h
    simp at h
  | some k =>
    rw [workerRun_env_some w env net k hk] at h
    simp at h
    exact sendOutcome_no_uploadPdf net h

theorem workerRun_envRead_count (w : GeminiWorker) (env : String → Option String)
    (net : Option HttpResponse) :
    countEv (w.run env net).2 .envRead = 1 := by
  cases hk : env "GEMINI_API_KEY" with
  | none =>
    rw [workerRun_env_none w env net hk]
    rfl
  | some k =>
    rw [workerRun_env_some w env net k hk]
    show countEv ([Ev.envRead] ++ (Gemini.sendOutcome net).2) Ev.envRead = 1
    rw [countEv_append,
      countEv_eq_zero (Gemini.sendOutcome net).2 .envRead (sendOutcome_no_envRead net)]
    rfl

theorem uploadTrace_no_postGen (env : String → Option String)
    (fb : Except String (List Nat)) (r1 r2 : Option HttpResponse) :
    Ev.postGenerate ∉ (upload_pdf_to_goole env fb r1 r2).2 := by
  intro h
  unfold upload_pdf_to_goole at h
  repeat' split at h
  all_goals simp at h

theorem uploadTrace_no_extract (env : String → Option String)
    (fb : Except String (List Nat)) (r1 r2 : Option HttpResponse) :
    Ev.extractPages ∉ (upload_pdf_to_goole env fb r1 r2).2 := by
  intro h
  unfold upload_pdf_to_goole at h
  repeat' split at h
  all_goals simp at h

theorem uploadTrace_no_uploadPdf (env : String → Option String)
    (fb : Except String (List Nat)) (r1 r2 : Option HttpResponse) :
    Ev.uploadPdf ∉ (upload_pdf_to_goole env fb r1 r2).2 := by
  intro h
  unfold upload_pdf_to_goole at h
  repeat' split at h
  all_goals simp at h

theorem uploadTrace_payload (env : String → Option String) (bs p : List Nat)
    (r1 r2 : Option HttpResponse)
    (h : Ev.postUploadBytes p ∈ (upload_pdf_to_goole env (.ok bs) r1 r2).2) :
    p = bs := by
  unfold upload_pdf_to_goole at h
  repeat' split at h
  all_goals simp_all

theorem imagesPhase_eq_of_ne (w : World) (sp : String) (st : RCState)
    (h : sp ≠ "whole_images") :
    imagesPhase w sp st = ({ st with pdf_images := none }, [], none) := by
  unfold imagesPhase
  simp [beq_iff_eq, h]

theorem imagesPhase_cached (w : World) (sp : String) (st : RCState)
    (h : sp = "whole_images") (hc : optListPyTruthy st.pdf_images = true) :
    imagesPhase w sp st = (st, [], none) := by
  unfold imagesPhase
  simp [beq_iff_eq, h, hc]

theorem imagesPhase_fill (w : World) (sp : String) (st : RCState) (imgs : List String)
    (h : sp = "whole_images") (hc : optListPyTruthy st.pdf_images = false)
    (he : w.pageImages = .ok imgs) :
    imagesPhase w sp st = ({ st with pdf_images := some imgs }, [.extractPages], none) := by
  unfold imagesPhase
  simp [beq_iff_eq, h, hc, he]

theorem imagesPhase_fail (w : World) (sp : String) (st : RCState) (m : String)
    (h : sp = "whole_images") (hc : optListPyTruthy st.pdf_images = false)
    (he : w.pageImages = .error m) :
    imagesPhase w sp st = (st, [.extractPages], some ("fitz error " ++ m)) := by
  unfold imagesPhase
  simp [beq_iff_eq, h, hc, he]

theorem uploadPhase_eq_of_ne (w : World) (inp : SendInput) (st : RCState)
    (h : inp.settings.send_pdf ≠ "whole_pdf") :
    uploadPhase w inp st = ({ st with pdf_uploaded_file_uri := none }, [], none) := by
  unfold uploadPhase
  simp [beq_iff_eq, h]

theorem uploadPhase_cached (w : World) (inp : SendInput) (st : RCState)
    (h : inp.settings.send_pdf = "whole_pdf")
    (hc : optJPyTruthy st.pdf_uploaded_file_uri = true) :
    uploadPhase w inp st = (st, [], none) := by
  unfold uploadPhase
  simp [beq_iff_eq, h, hc]

theorem uploadPhase_fill (w : World) (inp : SendInput) (st : RCState) (uri : JValue)
    (tr : List Ev) (h : inp.settings.send_pdf = "whole_pdf")
    (hc : optJPyTruthy st.pdf_uploaded_file_uri = false)
    (hu : upload_pdf_to_goole w.env w.fileBytes inp.upResp1 inp.upResp2 = (.ok uri, tr)) :
    uploadPhase w inp st
      = ({ st with pdf_uploaded_file_uri := some uri }, .uploadPdf :: tr, none) := by
  unfold uploadPhase
  simp [beq_iff_eq, h, hc, hu]

theorem uploadPhase_fail (w : World) (inp : SendInput) (st : RCState) (e : UpErr)
    (tr : List Ev) (h : inp.settings.send_pdf = "whole_pdf")
    (hc : optJPyTruthy st.pdf_uploaded_file_uri = false)
    (hu : upload_pdf_to_goole w.env w.fileBytes inp.upResp1 inp.upResp2 = (.error e, tr)) :
    uploadPhase w inp st = (st, .uploadPdf :: tr, some "upload error") := by
  unfold uploadPhase
  simp [beq_iff_eq, h, hc, hu]

theorem imagesPhase_trace_cases (w : World) (sp : String) (st : RCState) :
    (imagesPhase w sp st).2.1 = [] ∨ (imagesPhase w sp st).2.1 = [.extractPages] := by
  unfold imagesPhase
  repeat' split
  all_goals simp

theorem uploadPhase_trace_cases (w : World) (inp : SendInput) (st : RCState) :
    (uploadPhase w inp st).2.1 = [] ∨
      (uploadPhase w inp st).2.1
        = .uploadPdf :: (upload_pdf_to_goole w.env w.fileBytes inp.upResp1 inp.upResp2).2 := by
  unfold uploadPhase
  split
  · split
    · exact Or.inl rfl
    · rcases hu : upload_pdf_to_goole w.env w.fileBytes inp.upResp1 inp.upResp2 with ⟨res, tr⟩
      cases res <;> exact Or.inr rfl
  · exact Or.inl rfl

theorem imagesPhase_no_postGen (w : World) (sp : String) (st : RCState) :
    Ev.postGenerate ∉ (imagesPhase w sp st).2.1 := by
  rcases imagesPhase_trace_cases w sp st with h | h <;> rw [h] <;> simp

theorem uploadPhase_no_postGen (w : World) (inp : SendInput) (st : RCState) :
    Ev.postGenerate ∉ (uploadPhase w inp st).2.1 := by
  rcases uploadPhase_trace_cases w inp st with h | h <;> rw [h]
  · simp
  · simp
    exact uploadTrace_no_postGen _ _ _ _

theorem historyPhase_true_history (st : RCState) :
    (historyPhase true st).history = some (histBase st.history) := by
  unfold historyPhase histBase
  rcases h : st.history with _ | hs
  · simp
  · cases hs <;> simp [h]

theorem historyPhase_false_eq (st : RCState) :
    historyPhase false st = { st with history := none } := by
  rfl

theorem sendStep_eq_phases (w : World) (inp : SendInput) (st st1 st2 : RCState)
    (tr1 tr2 : List Ev)
    (h1 : imagesPhase w inp.settings.send_pdf st = (st1, tr1, none))
    (h2 : uploadPhase w inp st1 = (st2, tr2, none)) :
    sendStep w inp st =
      match (workerOf inp (historyPhase inp.settings.history st2)).run w.env inp.genResp with
      | (.responded q t, tr3) =>
        (handle_gemini_response q t (historyPhase inp.settings.history st2),
          tr1 ++ tr2 ++ tr3, .success q t)
      | (.errored m, tr3) =>
        (historyPhase inp.settings.history st2, tr1 ++ tr2 ++ tr3, .renderedError m)
      | (.crashed m, tr3) =>
        (historyPhase inp.settings.history st2, tr1 ++ tr2 ++ tr3, .uncaught m) := by
  unfold sendStep
  simp only [h1]
  simp only [h2]
  simp only [handle_gemini_error, workerOf]

theorem sendStep_trace_of_phases (w : World) (inp : SendInput) (st st1 st2 : RCState)
    (tr1 tr2 : List Ev)
    (h1 : imagesPhase w inp.settings.send_pdf st = (st1, tr1, none))
    (h2 : uploadPhase w inp st1 = (st2, tr2, none)) :
    (sendStep w inp st).2.1 =
      tr1 ++ tr2 ++
        ((workerOf inp (historyPhase inp.settings.history st2)).run w.env inp.genResp).2 := by
  rw [sendStep_eq_phases w inp st st1 st2 tr1 tr2 h1 h2]
  rcases hw : (workerOf inp (historyPhase inp.settings.history st2)).run w.env inp.genResp
    with ⟨out, tr3⟩
  cases out <;> rfl

theorem sendStep_state_pdf_images (w : World) (inp : SendInput) (st st1 st2 : RCState)
    (tr1 tr2 : List Ev)
    (h1 : imagesPhase w inp.settings.send_pdf st = (st1, tr1, none))
    (h2 : uploadPhase w inp st1 = (st2, tr2, none)) :
    (sendStep w inp st).1.pdf_images = st2.pdf_images := by
  rw [sendStep_eq_phases w inp st st1 st2 tr1 tr2 h1 h2]
  rcases hw : (workerOf inp (historyPhase inp.settings.history st2)).run w.env inp.genResp
    with ⟨out, tr3⟩
  cases out <;> simp [handleResp_pdf_images, historyPhase_pdf_images]

theorem sendStep_state_pdf_uri (w : World) (inp : SendInput) (st st1 st2 : RCState)
    (tr1 tr2 : List Ev)
    (h1 : imagesPhase w inp.settings.send_pdf st = (st1, tr1, none))
    (h2 : uploadPhase w inp st1 = (st2, tr2, none)) :
    (sendStep w inp st).1.pdf_uploaded_file_uri = st2.pdf_uploaded_file_uri := by
  rw [sendStep_eq_phases w inp st st1 st2 tr1 tr2 h1 h2]
  rcases hw : (workerOf inp (historyPhase inp.settings.history st2)).run w.env inp.genResp
    with ⟨out, tr3⟩
  cases out <;> simp [handleResp_pdf_uri, historyPhase_pdf_uri]

theorem sendStep_envCount_one (w : World) (inp : SendInput) (st : RCState)
    (hi : inp.settings.send_pdf ≠ "whole_images")
    (hu : inp.settings.send_pdf ≠ "whole_pdf") :
    countEv (sendStep w inp st).2.1 .envRead = 1 := by
  have h1 := imagesPhase_eq_of_ne w inp.settings.send_pdf st hi
  have h2 := uploadPhase_eq_of_ne w inp { st with pdf_images := none } hu
  rw [sendStep_trace_of_phases w inp st _ _ [] [] h1 h2]
  rw [countEv_append, countEv_append, workerRun_envRead_count]
  rfl

theorem sendStep_images_fill (w : World) (inp : SendInput) (st : RCState)
    (imgs : List String) (hsp : inp.settings.send_pdf = "whole_images")
    (hc : optListPyTruthy st.pdf_images = false) (he : w.pageImages = .ok imgs) :
    (sendStep w inp st).1.pdf_images = some imgs ∧
    countEv (sendStep w inp st).2.1 .extractPages = 1 := by
  have h1 := imagesPhase_fill w inp.settings.send_pdf st imgs hsp hc he
  have h2 := uploadPhase_eq_of_ne w inp { st with pdf_images := some imgs }
    (by rw [hsp]; decide)
  constructor
  · rw [sendStep_state_pdf_images w inp st _ _ _ _ h1 h2]
  · rw [sendStep_trace_of_phases w inp st _ _ _ _ h1 h2]
    rw [countEv_append, countEv_append]
    rw [countEv_eq_zero _ _ (workerRun_no_extract _ w.env inp.genResp)]
    rfl

theorem sendStep_images_cached (w : World) (inp : SendInput) (st : RCState)
    (hsp : inp.settings.send_pdf = "whole_images")
    (hc : optListPyTruthy st.pdf_images = true) :
    (sendStep w inp st).1.pdf_images = st.pdf_images ∧
    countEv (sendStep w inp st).2.1 .extractPages = 0 := by
  have h1 := imagesPhase_cached w inp.settings.send_pdf st hsp hc
  have h2 := uploadPhase_eq_of_ne w inp st (by rw [hsp]; decide)
  constructor
  · rw [sendStep_state_pdf_images w inp st _ _ _ _ h1 h2]
  · rw [sendStep_trace_of_phases w inp st _ _ _ _ h1 h2]
    rw [countEv_append, countEv_append]
    rw [countEv_eq_zero _ _ (workerRun_no_extract _ w.env inp.genResp)]
    rfl

theorem sendStep_upload_fill (w : World) (inp : SendInput) (st : RCState)
    (u : JValue) (tr : List Ev) (hsp : inp.settings.send_pdf = "whole_pdf")
    (hc : optJPyTruthy st.pdf_uploaded_file_uri = false)
    (hu : upload_pdf_to_goole w.env w.fileBytes inp.upResp1 inp.upResp2 = (.ok u, tr)) :
    (sendStep w inp st).1.pdf_uploaded_file_uri = some u ∧
    countEv (sendStep w inp st).2.1 .uploadPdf = 1 := by
  have h1 := imagesPhase_eq_of_ne w inp.settings.send_pdf st (by rw [hsp]; decide)
  have h2 := uploadPhase_fill w inp { st with pdf_images := none } u tr hsp hc hu
  have htr : tr = (upload_pdf_to_goole w.env w.fileBytes inp.upResp1 inp.upResp2).2 := by
    rw [hu]
  constructor
  · rw [sendStep_state_pdf_uri w inp st _ _ _ _ h1 h2]
  · rw [sendStep_trace_of_phases w inp st _ _ _ _ h1 h2]
    rw [countEv_append, countEv_append]
    rw [countEv_eq_zero _ _ (workerRun_no_uploadPdf _ w.env inp.genResp)]
    have hz : countEv tr .uploadPdf = 0 := by
      rw [htr]
      exact countEv_eq_zero _ _ (uploadTrace_no_uploadPdf _ _ _ _)
    show countEv [] .uploadPdf + countEv (Ev.uploadPdf :: tr) .uploadPdf + 0 = 1
    have : countEv (Ev.uploadPdf :: tr) .uploadPdf = 1 + countEv tr .uploadPdf := by
      show countEv ([Ev.uploadPdf] ++ tr) .uploadPdf = 1 + countEv tr .uploadPdf
      rw [countEv_append]
      rfl
    rw [this, hz]
    rfl

theorem sendStep_upload_cached (w : World) (inp : SendInput) (st : RCState)
    (hsp : inp.settings.send_pdf = "whole_pdf")
    (hc : optJPyTruthy st.pdf_uploaded_file_uri = true) :
    (sendStep w inp st).1.pdf_uploaded_file_uri = st.pdf_uploaded_file_uri ∧
    countEv (sendStep w inp st).2.1 .uploadPdf = 0 := by
  have h1 := imagesPhase_eq_of_ne w inp.settings.send_pdf st (by rw [hsp]; decide)
  have h2 := uploadPhase_cached w inp { st with pdf_images := none } hsp hc
  constructor
  · rw [sendStep_state_pdf_uri w inp st _ _ _ _ h1 h2]
  · rw [sendStep_trace_of_phases w inp st _ _ _ _ h1 h2]
    rw [countEv_append, countEv_append]
    rw [countEv_eq_zero _ _ (workerRun_no_uploadPdf _ w.env inp.genResp)]
    rfl

theorem runSends_two_trace (w : World) (i1 i2 : SendInput) (st : RCState) :
    (runSends w [i1, i2] st).2.1
      = (sendStep w i1 st).2.1 ++ ((sendStep w i2 (sendStep w i1 st).1).2.1 ++ []) ∧
    (runSends w [i1, i2] st).1 = (sendStep w i2 (sendStep w i1 st).1).1 := by
  rcases hs1 : sendStep w i1 st with ⟨st1, tr1, out1⟩
  rcases hs2 : sendStep w i2 st1 with ⟨st2, tr2, out2⟩
  constructor
  · show (runSends w [i1, i2] st).2.1 = (st1, tr1, out1).2.1 ++ ((st2, tr2, out2).2.1 ++ [])
    unfold runSends
    simp only [hs1]
    unfold runSends
    simp only [hs2]
    rfl
  · show (runSends w [i1, i2] st).1 = (st2, tr2, out2).1
    unfold runSends
    simp only [hs1]
    unfold runSends
    simp only [hs2]
    rfl

theorem turnsOf_length (qas : List (String × String)) :
    (turnsOf qas).length = 2 * qas.length := by
  induction qas with
  | nil => rfl
  | cons p t ih =>
    show (([Turn.mk "user" p.1, Turn.mk "model" p.2] :: t.map _).flatten).length = _
    rw [List.flatten_cons, List.length_append]
    have : (List.map (fun p => [Turn.mk "user" p.1, Turn.mk "model" p.2]) t).flatten.length
        = 2 * t.length := ih
    rw [this]
    simp [List.length_cons]
    omega

theorem sendStep_hist_success (w : World) (inp : SendInput) (st : RCState) (q a : String)
    (hh : inp.settings.history = true)
    (hs : (sendStep w inp st).2.2 = .success q a) :
    (sendStep w inp st).1.history
      = some (histBase st.history ++ [⟨"user", q⟩, ⟨"model", a⟩]) := by
  rcases h1 : imagesPhase w inp.settings.send_pdf st with ⟨st1, tr1, e1⟩
  rcases e1 with _ | m
  · rcases h2 : uploadPhase w inp st1 with ⟨st2, tr2, e2⟩
    rcases e2 with _ | m
    · have e1p : (imagesPhase w inp.settings.send_pdf st).1 = st1 := by rw [h1]
      have e2p : (uploadPhase w inp st1).1 = st2 := by rw [h2]
      have hh1 : st1.history = st.history := by
        rw [← e1p, imagesPhase_history]
      have hh2 : st2.history = st.history := by
        rw [← e2p, uploadPhase_history, hh1]
      have hst3 : (historyPhase inp.settings.history st2).history
          = some (histBase st.history) := by
        rw [hh, historyPhase_true_history, hh2]
      have heq := sendStep_eq_phases w inp st st1 st2 tr1 tr2 h1 h2
      rcases hw : (workerOf inp (historyPhase inp.settings.history st2)).run
          w.env inp.genResp with ⟨out, tr3⟩
      rw [heq, hw] at hs ⊢
      cases out with
      | responded q2 t2 =>
        simp only [Outcome.success.injEq] at hs
        obtain ⟨hq, ht⟩ := hs
        rw [hq, ht]
        show (handle_gemini_response q a (historyPhase inp.settings.history st2)).history = _
        simp only [handle_gemini_response, hst3]
      | errored m => simp at hs
      | crashed m => simp at hs
    · have hstep : sendStep w inp st = (st2, tr1 ++ tr2, .uncaught m) := by
        unfold sendStep
        simp only [h1]
        simp only [h2]
      rw [hstep] at hs
      simp at hs
  · have hstep : sendStep w inp st = (st1, tr1, .uncaught m) := by
      unfold sendStep
      simp only [h1]
    rw [hstep] at hs
    simp at hs

theorem sendStep_hist_rendered (w : World) (inp : SendInput) (st : RCState) (m : String)
    (hh : inp.settings.history = true)
    (hs : (sendStep w inp st).2.2 = .renderedError m) :
    (sendStep w inp st).1.history = some (histBase st.history) := by
  rcases h1 : imagesPhase w inp.settings.send_pdf st with ⟨st1, tr1, e1⟩
  rcases e1 with _ | m1
  · rcases h2 : uploadPhase w inp st1 with ⟨st2, tr2, e2⟩
    rcases e2 with _ | m2
    · have e1p : (imagesPhase w inp.settings.send_pdf st).1 = st1 := by rw [h1]
      have e2p : (uploadPhase w inp st1).1 = st2 := by rw [h2]
      have hh2 : st2.history = st.history := by
        rw [← e2p, uploadPhase_history, ← e1p, imagesPhase_history]
      have hst3 : (historyPhase inp.settings.history st2).history
          = some (histBase st.history) := by
        rw [hh, historyPhase_true_history, hh2]
      have heq := sendStep_eq_phases w inp st st1 st2 tr1 tr2 h1 h2
      rcases hw : (workerOf inp (historyPhase inp.settings.history st2)).run
          w.env inp.genResp with ⟨out, tr3⟩
      rw [heq, hw] at hs ⊢
      cases out with
      | responded q2 t2 => simp at hs
      | errored m2 => exact hst3
      | crashed m2 => simp at hs
    · have hstep : sendStep w inp st = (st2, tr1 ++ tr2, .uncaught m2) := by
        unfold sendStep
        simp only [h1]
        simp only [h2]
      rw [hstep] at hs
      simp at hs
  · have hstep : sendStep w inp st = (st1, tr1, .uncaught m1) := by
      unfold sendStep
      simp only [h1]
    rw [hstep] at hs
    simp at hs

theorem sendStep_hist_disabled (w : World) (inp : SendInput) (st : RCState)
    (hh : inp.settings.history = false)
    (hs : (sendStep w inp st).2.2.isUncaught = false) :
    (sendStep w inp st).1.history = none := by
  rcases h1 : imagesPhase w inp.settings.send_pdf st with ⟨st1, tr1, e1⟩
  rcases e1 with _ | m1
  · rcases h2 : uploadPhase w inp st1 with ⟨st2, tr2, e2⟩
    rcases e2 with _ | m2
    · have hst3 : (historyPhase inp.settings.history st2).history = none := by
        rw [hh]
        rfl
      have heq := sendStep_eq_phases w inp st st1 st2 tr1 tr2 h1 h2
      rcases hw : (workerOf inp (historyPhase inp.settings.history st2)).run
          w.env inp.genResp with ⟨out, tr3⟩
      rw [heq, hw] at hs ⊢
      cases out with
      | responded q2 t2 =>
        show (handle_gemini_response q2 t2 (historyPhase inp.settings.history st2)).history
          = none
        simp only [handle_gemini_response, hst3]
      | errored m2 => exact hst3
      | crashed m2 => simp [Outcome.isUncaught] at hs
    · have hstep : sendStep w inp st = (st2, tr1 ++ tr2, .uncaught m2) := by
        unfold sendStep
        simp only [h1]
        simp only [h2]
      rw [hstep] at hs
      simp [Outcome.isUncaught] at hs
  · have hstep : sendStep w inp st = (st1, tr1, .uncaught m1) := by
      unfold sendStep
      simp only [h1]
    rw [hstep] at hs
    simp [Outcome.isUncaught] at hs

/-! ### Counterexamples to the claims that fail on the code -/

/-- C1 counterexample: with GEMINI_API_KEY unset, startup succeeds and a
session opens (startup never reads the credential), and the first
user-initiated send then dies with an uncaught KeyError raised in the
worker thread, with no generation request ever posted — the process does
not report a fatal configuration error at startup and does open a
session. -/
theorem C1_counterexample :
    startup envEmpty (.ok baseSettings) = .ok RCState.init ∧
    sendStep ⟨envEmpty, .ok [0], .ok ["i"]⟩
        ⟨{ baseSettings with send_pdf := "false" }, "q", none, none, some okResp⟩
        RCState.init
      = (RCState.init, [.envRead], .uncaught "KeyError GEMINI_API_KEY") := by
  exact ⟨rfl, rfl⟩

/-- C2 counterexample: a status-400 generation response whose body is
not valid JSON yields a JSON-decode error, not a transport error, and
the trace shows the body parse was attempted (by the debug print on line
83) before the status check. -/
theorem C2_counterexample :
    Gemini.sendOutcome (some ⟨400, [], none⟩)
      = (.error .jsonDecode, [.postGenerate, .parseJsonGen]) := by
  exact rfl

/-- C3 counterexample: for a document whose content is the single byte
0, the whole-file accessor returns the base64 text AA==, whose bytes
differ from the content (so the read is not byte-for-byte), while the
upload path sends the raw byte 0 it read itself — the accessor is
neither transformation-free nor the source of the uploaded bytes. -/
theorem C3_counterexample :
    get_pdf_bytes [0] = "AA==" ∧
    "AA==".toList.map Char.toNat ≠ [0] ∧
    (upload_pdf_to_goole envWithKey (.ok [0]) (some startResp) (some finalizeResp)).2
      = [.envRead, .postUploadStart, .postUploadBytes [0], .parseJsonUpload2] := by
  refine ⟨rfl, by decide, rfl⟩

/-- C4 counterexample: a document-access failure during page-image
extraction is raised inside send_to_gemini, where no handler exists, so
the send ends in an uncaught exception instead of a rendered error
message. -/
theorem C4_counterexample :
    (sendStep ⟨envWithKey, .ok [0], .error "cannot open document"⟩
        ⟨{ baseSettings with send_pdf := "whole_images" }, "q", none, none, some okResp⟩
        RCState.init).2.2
      = .uncaught "fitz error cannot open document" := by
  exact rfl

/-- C5 counterexample: a call to send with both a non-empty image list
and a truthy file reference produces a current turn containing both an
inline-image part and a file-reference part before the text part — the
client itself never enforces the never-both rule. -/
theorem C5_counterexample :
    currentParts "q" (some ["i"]) (some (.str "u"))
      = [inlineImagePart "i", fileDataPart (.str "u"), textPart "q"] := by
  exact rfl

/-- C6 counterexample: for a document with zero pages, the cached image
list is empty and hence falsy, so two consecutive sends under the
unchanged whole_images strategy run the page-image extraction twice, not
once. -/
theorem C6_counterexample :
    countEv (runSends ⟨envWithKey, .ok [0], .ok []⟩
        [⟨{ baseSettings with send_pdf := "whole_images" }, "q", none, none, some okResp⟩,
         ⟨{ baseSettings with send_pdf := "whole_images" }, "q", none, none, some okResp⟩]
        RCState.init).2.1 .extractPages
      = 2 := by
  exact rfl

/-- C9 counterexample: a send that fails with a transport error on the
generation endpoint nevertheless leaves the page image cache populated
(none before, the extracted page after) and the history container
initialized (none before, the empty list after): the failed send did
mutate the caches and the history. -/
theorem C9_counterexample :
    sendStep ⟨envWithKey, .ok [0], .ok ["i"]⟩
        ⟨{ baseSettings with send_pdf := "whole_images", history := true },
          "q", none, none, none⟩
        RCState.init
      = (⟨some ["i"], none, some []⟩,
         [.extractPages, .envRead, .postGenerate],
         .renderedError "ERROR httpx.HTTPError httpx request error") := by
  exact rfl

/-! ### Claim theorems -/

/-- C1 (amended): the credential is read from the environment once at
each model-client construction, and the client is constructed anew
inside every send (so one read per send, not one per process); its
absence is not a startup condition: startup never consults the
credential and always opens the session, and a send under a missing
credential ends in an uncaught KeyError with no generation request ever
posted. -/
theorem C1_amended :
    (∀ env settings, startup env (.ok settings) = .ok RCState.init) ∧
    (∀ w inp st, w.env "GEMINI_API_KEY" = none →
      (∃ m, (sendStep w inp st).2.2 = .uncaught m) ∧
      Ev.postGenerate ∉ (sendStep w inp st).2.1) ∧
    (∀ w inps st, (∀ i ∈ inps, i.settings.send_pdf = "false") →
      countEv (runSends w inps st).2.1 .envRead = inps.length) := by
  refine ⟨fun env settings => rfl, ?_, ?_⟩
  · intro w inp st hk
    rcases h1 : imagesPhase w inp.settings.send_pdf st with ⟨st1, tr1, e1⟩
    have him := imagesPhase_no_postGen w inp.settings.send_pdf st
    rw [h1] at him
    rcases e1 with _ | m
    · rcases h2 : uploadPhase w inp st1 with ⟨st2, tr2, e2⟩
      have hup := uploadPhase_no_postGen w inp st1
      rw [h2] at hup
      rcases e2 with _ | m
      · have hrun := workerRun_env_none (workerOf inp (historyPhase inp.settings.history st2))
          w.env inp.genResp hk
        rw [sendStep_eq_phases w inp st st1 st2 tr1 tr2 h1 h2, hrun]
        refine ⟨⟨"KeyError GEMINI_API_KEY", rfl⟩, ?_⟩
        show Ev.postGenerate ∉ tr1 ++ tr2 ++ [Ev.envRead]
        intro hmem
        rcases List.mem_append.mp hmem with hmem | hmem
        · rcases List.mem_append.mp hmem with hmem | hmem
          · exact him hmem
          · exact hup hmem
        · simp at hmem
      · have hstep : sendStep w inp st = (st2, tr1 ++ tr2, .uncaught m) := by
          unfold sendStep
          simp only [h1]
          simp only [h2]
        rw [hstep]
        refine ⟨⟨m, rfl⟩, ?_⟩
        intro hmem
        rcases List.mem_append.mp hmem with hmem | hmem
        · exact him hmem
        · exact hup hmem
    · have hstep : sendStep w inp st = (st1, tr1, .uncaught m) := by
        unfold sendStep
        simp only [h1]
      rw [hstep]
      exact ⟨⟨m, rfl⟩, him⟩
  · intro w inps st h
    induction inps generalizing st with
    | nil => rfl
    | cons i rest ih =>
      have hi : i.settings.send_pdf = "false" := h i (List.mem_cons_self i rest)
      have hrest : ∀ j ∈ rest, j.settings.send_pdf = "false" :=
        fun j hj => h j (List.mem_cons_of_mem i hj)
      rcases hs : sendStep w i st with ⟨st1, tr, out⟩
      rcases hr : runSends w rest st1 with ⟨st2, tr2, outs⟩
      have hone : countEv tr .envRead = 1 := by
        have := sendStep_envCount_one w i st (by rw [hi]; decide) (by rw [hi]; decide)
        rw [hs] at this
        exact this
      have hr2 : countEv tr2 .envRead = rest.length := by
        have := ih st1 hrest
        rw [hr] at this
        exact this
      show countEv (runSends w (i :: rest) st).2.1 .envRead = (i :: rest).length
      unfold runSends
      simp only [hs, hr]
      rw [countEv_append, hone, hr2, List.length_cons]
      omega

/-- C1 amended witness: the three parts of the amended claim
instantiated at concrete worlds and inputs. -/
theorem C1_amended_witness :
    startup envEmpty (.ok baseSettings) = .ok RCState.init ∧
    ((∃ m, (sendStep worldNoKey inpFalse RCState.init).2.2 = .uncaught m) ∧
      Ev.postGenerate ∉ (sendStep worldNoKey inpFalse RCState.init).2.1) ∧
    countEv (runSends worldKeyed [inpFalse] RCState.init).2.1 .envRead = 1 := by
  refine ⟨C1_amended.1 envEmpty baseSettings,
    C1_amended.2.1 worldNoKey inpFalse RCState.init rfl,
    C1_amended.2.2 worldKeyed [inpFalse] RCState.init ?_⟩
  intro i hi
  rw [List.mem_singleton] at hi
  subst hi
  rfl

/-- C2 (amended): on the upload endpoint the claim holds as stated: a
status of 400 or more on either upload step yields a transport error
before any JSON parse of that response.  On the generation endpoint the
debug print parses the body before the status check, so a status of 400
or more yields a transport error only when the body is valid JSON (with
the parse preceding the raise in the trace), and a JSON-decode error
instead when it is not. -/
theorem C2_amended :
    (∀ (env : String → Option String) (k : String) (bs : List Nat)
        (r2 : Option HttpResponse) (q1 : HttpResponse),
      env "GEMINI_API_KEY" = some k → 400 ≤ q1.status →
        upload_pdf_to_goole env (.ok bs) (some q1) r2
          = (.error (.transport "HTTPStatusError"),
             [.envRead, .postUploadStart, .raiseStatusUpload1]) ∧
        Ev.parseJsonUpload2 ∉ (upload_pdf_to_goole env (.ok bs) (some q1) r2).2) ∧
    (∀ (env : String → Option String) (k : String) (bs : List Nat)
        (q1 q2 : HttpResponse) (u : String),
      env "GEMINI_API_KEY" = some k → q1.isSuccess = true →
      headerLookup q1.headers "x-goog-upload-url" = some u → 400 ≤ q2.status →
        upload_pdf_to_goole env (.ok bs) (some q1) (some q2)
          = (.error (.transport "HTTPStatusError"),
             [.envRead, .postUploadStart, .postUploadBytes bs, .raiseStatusUpload2]) ∧
        Ev.parseJsonUpload2 ∉ (upload_pdf_to_goole env (.ok bs) (some q1) (some q2)).2) ∧
    (∀ (r : HttpResponse) (body : JValue), 400 ≤ r.status → r.jsonBody = some body →
      Gemini.sendOutcome (some r)
        = (.error (.transport "HTTPStatusError"),
           [.postGenerate, .parseJsonGen, .raiseStatusGen])) ∧
    (∀ r : HttpResponse, 400 ≤ r.status → r.jsonBody = none →
      Gemini.sendOutcome (some r) = (.error .jsonDecode, [.postGenerate, .parseJsonGen])) := by
  refine ⟨?_, ?_, ?_, ?_⟩
  · intro env k bs r2 q1 henv hq
    have hfail := isSuccess_false_of_ge400 q1 hq
    have heq : upload_pdf_to_goole env (.ok bs) (some q1) r2
        = (.error (.transport "HTTPStatusError"),
           [.envRead, .postUploadStart, .raiseStatusUpload1]) := by
      unfold upload_pdf_to_goole
      rw [henv]
      simp [hfail]
    refine ⟨heq, ?_⟩
    rw [heq]
    simp
  · intro env k bs q1 q2 u henv hok hhd hq
    have hfail := isSuccess_false_of_ge400 q2 hq
    have heq : upload_pdf_to_goole env (.ok bs) (some q1) (some q2)
        = (.error (.transport "HTTPStatusError"),
           [.envRead, .postUploadStart, .postUploadBytes bs, .raiseStatusUpload2]) := by
      unfold upload_pdf_to_goole
      rw [henv]
      simp [hok, hhd, hfail]
    refine ⟨heq, ?_⟩
    rw [heq]
    simp
  · intro r body hq hb
    have hfail := isSuccess_false_of_ge400 r hq
    simp only [Gemini.sendOutcome]
    rw [hb]
    simp [hfail]
  · intro r hq hb
    simp only [Gemini.sendOutcome]
    rw [hb]

/-- C2 amended witness: the four parts of the amended claim at concrete
responses. -/
theorem C2_amended_witness :
    (upload_pdf_to_goole envWithKey (.ok [0]) (some ⟨400, [], none⟩) none
        = (.error (.transport "HTTPStatusError"),
           [.envRead, .postUploadStart, .raiseStatusUpload1]) ∧
      Ev.parseJsonUpload2 ∉
        (upload_pdf_to_goole envWithKey (.ok [0]) (some ⟨400, [], none⟩) none).2) ∧
    (upload_pdf_to_goole envWithKey (.ok [0]) (some startResp) (some ⟨500, [], none⟩)
        = (.error (.transport "HTTPStatusError"),
           [.envRead, .postUploadStart, .postUploadBytes [0], .raiseStatusUpload2]) ∧
      Ev.parseJsonUpload2 ∉
        (upload_pdf_to_goole envWithKey (.ok [0]) (some startResp) (some ⟨500, [], none⟩)).2) ∧
    Gemini.sendOutcome (some ⟨404, [], some (.obj [])⟩)
      = (.error (.transport "HTTPStatusError"),
         [.postGenerate, .parseJsonGen, .raiseStatusGen]) ∧
    Gemini.sendOutcome (some ⟨404, [], none⟩)
      = (.error .jsonDecode, [.postGenerate, .parseJsonGen]) := by
  refine ⟨?_, ?_, ?_, ?_⟩
  · exact C2_amended.1 envWithKey "K" [0] none ⟨400, [], none⟩ rfl (by decide)
  · exact C2_amended.2.1 envWithKey "K" [0] startResp ⟨500, [], none⟩
      "https://upload.example/session" rfl rfl rfl (by decide)
  · exact C2_amended.2.2.1 ⟨404, [], some (.obj [])⟩ (.obj []) (by decide) rfl
  · exact C2_amended.2.2.2 ⟨404, [], none⟩ (by decide) rfl

/-- Base64 output length: four characters per three input bytes,
rounded up. -/
theorem b64encode_length (bs : List Nat) :
    (b64encode bs).length = 4 * ((bs.length + 2) / 3) := by
  induction bs using b64encode.induct with
  | case1 => rfl
  | case2 a => simp [b64encode]
  | case3 a b => simp [b64encode]
  | case4 a b c rest ih =>
    simp only [b64encode, List.length_cons, ih]
    omega

/-- C3 (amended): the whole-file accessor returns the base64 text
encoding of the file content, not a byte-for-byte copy (for a non-empty
file its length always differs from the content length), and the upload
path does not use it: upload_pdf_to_goole reads the file itself and the
payload it transfers is exactly the raw content. -/
theorem C3_amended :
    (∀ bs : List Nat, get_pdf_bytes bs = String.mk (b64encode bs)) ∧
    (∀ bs : List Nat, bs ≠ [] → (get_pdf_bytes bs).length ≠ bs.length) ∧
    (∀ (env : String → Option String) (bs p : List Nat) (r1 r2 : Option HttpResponse),
      Ev.postUploadBytes p ∈ (upload_pdf_to_goole env (.ok bs) r1 r2).2 → p = bs) := by
  refine ⟨fun bs => rfl, ?_, fun env bs p r1 r2 h => uploadTrace_payload env bs p r1 r2 h⟩
  intro bs hne
  have hl : (get_pdf_bytes bs).length = 4 * ((bs.length + 2) / 3) :=
    b64encode_length bs
  rw [hl]
  have hpos : 0 < bs.length := List.length_pos.mpr hne
  omega

/-- C3 amended witness: the three parts at the one-byte document. -/
theorem C3_amended_witness :
    get_pdf_bytes [0] = String.mk (b64encode [0]) ∧
    (([0] : List Nat) ≠ [] ∧ (get_pdf_bytes [0]).length ≠ ([0] : List Nat).length) ∧
    (Ev.postUploadBytes [0]
        ∈ (upload_pdf_to_goole envWithKey (.ok [0]) (some startResp) (some finalizeResp)).2 ∧
      ([0] : List Nat) = [0]) := by
  refine ⟨C3_amended.1 [0], ⟨by decide, C3_amended.2.1 [0] (by decide)⟩, ⟨?_, ?_⟩⟩
  · show Ev.postUploadBytes [0] ∈
      [Ev.envRead, Ev.postUploadStart, Ev.postUploadBytes [0], Ev.parseJsonUpload2]
    simp
  · exact C3_amended.2.2 envWithKey [0] [0] (some startResp) (some finalizeResp)
      (by show Ev.postUploadBytes [0] ∈
            [Ev.envRead, Ev.postUploadStart, Ev.postUploadBytes [0], Ev.parseJsonUpload2]
          simp)

/-- C4 (amended): failures raised inside the worker are caught and
rendered as a textual message — a transport failure of the generation
call, a status error on it, an unparseable body, and a body lacking the
candidates key all end as a rendered error — but a document-access
failure during extraction and any failure of the upload step are raised
inside send_to_gemini, which has no handler, so those sends end in an
uncaught exception rather than a rendered message. -/
theorem C4_amended :
    (∀ (wk : GeminiWorker) (env : String → Option String) (k : String),
      env "GEMINI_API_KEY" = some k →
        (wk.run env none).1 = .errored "ERROR httpx.HTTPError httpx request error") ∧
    (∀ (wk : GeminiWorker) (env : String → Option String) (k : String) (r : HttpResponse),
      env "GEMINI_API_KEY" = some k → r.jsonBody = none →
        (wk.run env (some r)).1 = .errored "ERROR json.decoder.JSONDecodeError") ∧
    (∀ (wk : GeminiWorker) (env : String → Option String) (k : String) (r : HttpResponse)
        (body : JValue),
      env "GEMINI_API_KEY" = some k → r.jsonBody = some body → 400 ≤ r.status →
        (wk.run env (some r)).1 = .errored "ERROR httpx.HTTPError HTTPStatusError") ∧
    (∀ (wk : GeminiWorker) (env : String → Option String) (k : String) (r : HttpResponse)
        (fields : List (String × JValue)),
      env "GEMINI_API_KEY" = some k → r.jsonBody = some (.obj fields) →
      r.isSuccess = true → fields.lookup "candidates" = none →
        (wk.run env (some r)).1 = .errored "ERROR KeyError candidates") ∧
    (∀ (w : World) (inp : SendInput) (st st1 st2 : RCState) (tr1 tr2 tr3 : List Ev)
        (m : String),
      imagesPhase w inp.settings.send_pdf st = (st1, tr1, none) →
      uploadPhase w inp st1 = (st2, tr2, none) →
      (workerOf inp (historyPhase inp.settings.history st2)).run w.env inp.genResp
        = (.errored m, tr3) →
        (sendStep w inp st).2.2 = .renderedError m) ∧
    (∀ (w : World) (inp : SendInput) (st : RCState) (m : String),
      inp.settings.send_pdf = "whole_images" → optListPyTruthy st.pdf_images = false →
      w.pageImages = .error m →
        (sendStep w inp st).2.2 = .uncaught ("fitz error " ++ m)) ∧
    (∀ (w : World) (inp : SendInput) (st : RCState) (e : UpErr) (tr : List Ev),
      inp.settings.send_pdf = "whole_pdf" →
      optJPyTruthy st.pdf_uploaded_file_uri = false →
      upload_pdf_to_goole w.env w.fileBytes inp.upResp1 inp.upResp2 = (.error e, tr) →
        (sendStep w inp st).2.2 = .uncaught "upload error") := by
  refine ⟨?_, ?_, ?_, ?_, ?_, ?_, ?_⟩
  · intro wk env k henv
    rw [workerRun_env_some wk env none k henv]
    rfl
  · intro wk env k r henv hb
    rw [workerRun_env_some wk env (some r) k henv]
    show workerHandle wk.query (Gemini.sendOutcome (some r)).1 = _
    simp only [Gemini.sendOutcome]
    rw [hb]
    rfl
  · intro wk env k r body henv hb hq
    have hfail := isSuccess_false_of_ge400 r hq
    rw [workerRun_env_some wk env (some r) k henv]
    show workerHandle wk.query (Gemini.sendOutcome (some r)).1 = _
    simp only [Gemini.sendOutcome]
    rw [hb]
    simp [hfail, workerHandle]
  · intro wk env k r fields henv hb hok hlk
    rw [workerRun_env_some wk env (some r) k henv]
    show workerHandle wk.query (Gemini.sendOutcome (some r)).1 = _
    simp only [Gemini.sendOutcome]
    rw [hb]
    simp only [hok, if_true, workerHandle, candidateText, jGet, hlk]
    rfl
  · intro w inp st st1 st2 tr1 tr2 tr3 m h1 h2 hw
    rw [sendStep_eq_phases w inp st st1 st2 tr1 tr2 h1 h2, hw]
  · intro w inp st m hsp hc he
    have h1 := imagesPhase_fail w inp.settings.send_pdf st m hsp hc he
    unfold sendStep
    simp only [h1]
  · intro w inp st e tr hsp hc hu
    have h1 := imagesPhase_eq_of_ne w inp.settings.send_pdf st (by rw [hsp]; decide)
    have h2 := uploadPhase_fail w inp { st with pdf_images := none } e tr hsp hc hu
    unfold sendStep
    simp only [h1]
    simp only [h2]

/-- C4 amended witness: the seven parts at concrete inputs. -/
theorem C4_amended_witness :
    ((workerOf inpFalse RCState.init).run envWithKey none).1
        = .errored "ERROR httpx.HTTPError httpx request error" ∧
    ((workerOf inpFalse RCState.init).run envWithKey (some ⟨200, [], none⟩)).1
        = .errored "ERROR json.decoder.JSONDecodeError" ∧
    ((workerOf inpFalse RCState.init).run envWithKey
        (some ⟨404, [], some (.obj [])⟩)).1
        = .errored "ERROR httpx.HTTPError HTTPStatusError" ∧
    ((workerOf inpFalse RCState.init).run envWithKey
        (some ⟨200, [], some (.obj [])⟩)).1
        = .errored "ERROR KeyError candidates" ∧
    (sendStep worldKeyed inpImagesNoNet RCState.init).2.2
        = .renderedError "ERROR httpx.HTTPError httpx request error" ∧
    (sendStep worldBadDoc inpImages RCState.init).2.2
        = .uncaught "fitz error cannot open document" ∧
    (sendStep worldKeyed inpPdfNoNet RCState.init).2.2 = .uncaught "upload error" := by
  refine ⟨C4_amended.1 (workerOf inpFalse RCState.init) envWithKey "K" rfl,
    C4_amended.2.1 (workerOf inpFalse RCState.init) envWithKey "K" ⟨200, [], none⟩ rfl rfl,
    C4_amended.2.2.1 (workerOf inpFalse RCState.init) envWithKey "K" ⟨404, [], some (.obj [])⟩
      (.obj []) rfl rfl (by decide),
    C4_amended.2.2.2.1 (workerOf inpFalse RCState.init) envWithKey "K"
      ⟨200, [], some (.obj [])⟩ [] rfl rfl (by decide) rfl,
    C4_amended.2.2.2.2.1 worldKeyed inpImagesNoNet RCState.init _ _ _ _
      [Ev.envRead, Ev.postGenerate] "ERROR httpx.HTTPError httpx request error" rfl rfl rfl,
    C4_amended.2.2.2.2.2.1 worldBadDoc inpImages RCState.init "cannot open document"
      rfl rfl rfl,
    C4_amended.2.2.2.2.2.2 worldKeyed inpPdfNoNet RCState.init
      (.transport "httpx request error") [Ev.envRead, Ev.postUploadStart] rfl rfl rfl⟩

/-- C5 (amended): the request contents are the prior history turns in
order followed by one entry of role user; when at most one of the two
context arguments is truthy — which the orchestrator cache invariant
supplies — that entry has the claimed exclusive shape: one PNG inline
part per image or a single PDF file part, followed by exactly one text
part holding the literal query.  When both arguments are truthy the
client emits both kinds of parts in the same request, images first. -/
theorem C5_amended :
    (∀ (g : Gemini) (q : String) (imgs : Option (List String)) (uri : Option JValue)
        (hist : Option (List Turn)),
      Gemini.requestData g q imgs uri hist
        = .obj [
            ("generationConfig", .obj [("max_output_tokens", .nat g.max_output_tokens)]),
            ("system_instruction", .obj [("parts", .obj [("text", .str g.system_prompt)])]),
            ("contents", .arr (historyContents hist ++
              [JValue.obj [("role", .str "user"),
                ("parts", .arr (currentParts q imgs uri))]]))]) ∧
    (∀ (q : String) (imgs : Option (List String)) (uri : Option JValue),
      optJPyTruthy uri = false →
        currentParts q imgs uri = imageParts imgs ++ [textPart q]) ∧
    (∀ (q : String) (imgs : Option (List String)) (uri : Option JValue),
      optListPyTruthy imgs = false →
        currentParts q imgs uri = filePartList uri ++ [textPart q]) ∧
    (∀ pixs : List String, imageParts (some pixs) = pixs.map inlineImagePart) ∧
    (∀ uri : JValue, uri.pyTruthy = true → filePartList (some uri) = [fileDataPart uri]) := by
  refine ⟨fun g q imgs uri hist => rfl, ?_, ?_, fun pixs => rfl, ?_⟩
  · intro q imgs uri h
    have hf : filePartList uri = [] := by
      rcases uri with _ | v
      · rfl
      · simp only [optJPyTruthy] at h
        simp [filePartList, h]
    unfold currentParts
    rw [hf, List.append_nil]
  · intro q imgs uri h
    have hi : imageParts imgs = [] := by
      rcases imgs with _ | xs
      · rfl
      · cases xs with
        | nil => rfl
        | cons a t => simp [optListPyTruthy] at h
    unfold currentParts
    rw [hi, List.nil_append]
  · intro uri h
    simp [filePartList, h]

/-- C5 amended witness: the exclusive shapes at concrete arguments. -/
theorem C5_amended_witness :
    Gemini.requestData ⟨"m", "SP", 7, "K"⟩ "q" (some ["i"]) none none
      = .obj [
          ("generationConfig", .obj [("max_output_tokens", .nat 7)]),
          ("system_instruction", .obj [("parts", .obj [("text", .str "SP")])]),
          ("contents", .arr (historyContents none ++
            [JValue.obj [("role", .str "user"),
              ("parts", .arr (currentParts "q" (some ["i"]) none))]]))] ∧
    currentParts "q" (some ["i"]) none = imageParts (some ["i"]) ++ [textPart "q"] ∧
    currentParts "q" none (some (.str "u"))
      = filePartList (some (.str "u")) ++ [textPart "q"] ∧
    imageParts (some ["i"]) = ["i"].map inlineImagePart ∧
    filePartList (some (.str "u")) = [fileDataPart (.str "u")] := by
  refine ⟨C5_amended.1 ⟨"m", "SP", 7, "K"⟩ "q" (some ["i"]) none none,
    C5_amended.2.1 "q" (some ["i"]) none rfl,
    C5_amended.2.2.1 "q" none (some (.str "u")) rfl,
    C5_amended.2.2.2.1 ["i"],
    C5_amended.2.2.2.2 (.str "u") rfl⟩

/-- C6 (amended): provided the prepared context is non-empty — the
document yields at least one page image, or the upload returns a truthy
uri — two consecutive sends under an unchanged strategy run the
preparation exactly once, and the cache still holds the first result
after both sends (the second send reuses it); an empty extraction
result (zero-page document) is falsy and re-triggers extraction on
every send. -/
theorem C6_amended :
    (∀ (w : World) (i1 i2 : SendInput) (st : RCState) (imgs : List String),
      i1.settings.send_pdf = "whole_images" → i2.settings.send_pdf = "whole_images" →
      optListPyTruthy st.pdf_images = false → w.pageImages = .ok imgs → imgs ≠ [] →
        countEv (runSends w [i1, i2] st).2.1 .extractPages = 1 ∧
        (runSends w [i1, i2] st).1.pdf_images = some imgs) ∧
    (∀ (w : World) (i1 i2 : SendInput) (st : RCState) (u : JValue) (tr : List Ev),
      i1.settings.send_pdf = "whole_pdf" → i2.settings.send_pdf = "whole_pdf" →
      optJPyTruthy st.pdf_uploaded_file_uri = false →
      upload_pdf_to_goole w.env w.fileBytes i1.upResp1 i1.upResp2 = (.ok u, tr) →
      u.pyTruthy = true →
        countEv (runSends w [i1, i2] st).2.1 .uploadPdf = 1 ∧
        (runSends w [i1, i2] st).1.pdf_uploaded_file_uri = some u) := by
  constructor
  · intro w i1 i2 st imgs h1sp h2sp hc he hne
    obtain ⟨hA1, hA2⟩ := sendStep_images_fill w i1 st imgs h1sp hc he
    have htruthy : optListPyTruthy (sendStep w i1 st).1.pdf_images = true := by
      rw [hA1]
      cases imgs with
      | nil => exact absurd rfl hne
      | cons a t => rfl
    obtain ⟨hB1, hB2⟩ := sendStep_images_cached w i2 (sendStep w i1 st).1 h2sp htruthy
    obtain ⟨htr, hst⟩ := runSends_two_trace w i1 i2 st
    constructor
    · rw [htr, countEv_append, countEv_append, hA2, hB2]
      rfl
    · rw [hst, hB1, hA1]
  · intro w i1 i2 st u tr h1sp h2sp hc hu hut
    obtain ⟨hA1, hA2⟩ := sendStep_upload_fill w i1 st u tr h1sp hc hu
    have htruthy : optJPyTruthy (sendStep w i1 st).1.pdf_uploaded_file_uri = true := by
      rw [hA1]
      exact hut
    obtain ⟨hB1, hB2⟩ := sendStep_upload_cached w i2 (sendStep w i1 st).1 h2sp htruthy
    obtain ⟨htr, hst⟩ := runSends_two_trace w i1 i2 st
    constructor
    · rw [htr, countEv_append, countEv_append, hA2, hB2]
      rfl
    · rw [hst, hB1, hA1]

/-- C6 amended witness: a one-page document extracts once over two
whole_images sends; a successful upload runs once over two whole_pdf
sends. -/
theorem C6_amended_witness :
    (countEv (runSends worldKeyed [inpImages, inpImages] RCState.init).2.1 .extractPages = 1 ∧
      (runSends worldKeyed [inpImages, inpImages] RCState.init).1.pdf_images = some ["i"]) ∧
    (countEv (runSends worldKeyed [inpPdf, inpPdf] RCState.init).2.1 .uploadPdf = 1 ∧
      (runSends worldKeyed [inpPdf, inpPdf] RCState.init).1.pdf_uploaded_file_uri
        = some (.str "files/abc123")) := by
  refine ⟨C6_amended.1 worldKeyed inpImages inpImages RCState.init ["i"]
      rfl rfl rfl rfl (by decide),
    C6_amended.2 worldKeyed inpPdf inpPdf RCState.init (.str "files/abc123")
      [.envRead, .postUploadStart, .postUploadBytes [0], .parseJsonUpload2]
      rfl rfl rfl rfl rfl⟩

/-- C7: confirmed.  After a completed cache-adjustment step the image
cache is None unless the strategy is whole_images and the file
reference is None unless the strategy is whole_pdf, so at most one of
the two is populated and it is the one the current strategy selects;
and a cache the step finds empty under its own strategy is recomputed
during that same step (the recompute after a strategy switch). -/
theorem C7_theorem :
    ∀ (w : World) (inp : SendInput) (st st1 st2 : RCState) (tr1 tr2 : List Ev),
      imagesPhase w inp.settings.send_pdf st = (st1, tr1, none) →
      uploadPhase w inp st1 = (st2, tr2, none) →
      ((inp.settings.send_pdf ≠ "whole_images" →
        (historyPhase inp.settings.history st2).pdf_images = none) ∧
      (inp.settings.send_pdf ≠ "whole_pdf" →
        (historyPhase inp.settings.history st2).pdf_uploaded_file_uri = none) ∧
      ¬((historyPhase inp.settings.history st2).pdf_images ≠ none ∧
        (historyPhase inp.settings.history st2).pdf_uploaded_file_uri ≠ none) ∧
      (inp.settings.send_pdf = "whole_images" → optListPyTruthy st.pdf_images = false →
        Ev.extractPages ∈ tr1) ∧
      (inp.settings.send_pdf = "whole_pdf" →
        optJPyTruthy st.pdf_uploaded_file_uri = false → Ev.uploadPdf ∈ tr2)) := by
  intro w inp st st1 st2 tr1 tr2 h1 h2
  have e1 : (imagesPhase w inp.settings.send_pdf st).1 = st1 := by rw [h1]
  have e2 : (uploadPhase w inp st1).1 = st2 := by rw [h2]
  have himgnone : inp.settings.send_pdf ≠ "whole_images" →
      (historyPhase inp.settings.history st2).pdf_images = none := by
    intro hne
    rw [historyPhase_pdf_images, ← e2, uploadPhase_pdf_images, ← e1,
      imagesPhase_eq_of_ne w inp.settings.send_pdf st hne]
  have hurinone : inp.settings.send_pdf ≠ "whole_pdf" →
      (historyPhase inp.settings.history st2).pdf_uploaded_file_uri = none := by
    intro hne
    rw [historyPhase_pdf_uri, ← e2, uploadPhase_eq_of_ne w inp st1 hne]
  refine ⟨himgnone, hurinone, ?_, ?_, ?_⟩
  · rintro ⟨hi, hu⟩
    by_cases hsp : inp.settings.send_pdf = "whole_images"
    · exact hu (hurinone (by rw [hsp]; decide))
    · exact hi (himgnone hsp)
  · intro hsp hc
    have e1t : (imagesPhase w inp.settings.send_pdf st).2.1 = tr1 := by rw [h1]
    rw [← e1t]
    rcases hw : w.pageImages with m | imgs
    · rw [imagesPhase_fail w inp.settings.send_pdf st m hsp hc hw] at h1
      simp at h1
    · rw [imagesPhase_fill w inp.settings.send_pdf st imgs hsp hc hw]
      simp
  · intro hsp hc
    have e2t : (uploadPhase w inp st1).2.1 = tr2 := by rw [h2]
    have hc1 : optJPyTruthy st1.pdf_uploaded_file_uri = false := by
      rw [← e1, imagesPhase_pdf_uri]
      exact hc
    rw [← e2t]
    rcases hu : upload_pdf_to_goole w.env w.fileBytes inp.upResp1 inp.upResp2 with ⟨res, tr⟩
    rcases res with e | u
    · rw [uploadPhase_fail w inp st1 e tr hsp hc1 hu] at h2
      simp at h2
    · rw [uploadPhase_fill w inp st1 u tr hsp hc1 hu]
      simp

/-- C7 witness: a send under single_page with a previously populated
image cache drops both caches, and a whole_images send with an empty
cache extracts during its own adjustment step. -/
theorem C7_theorem_witness :
    ((inpSingle.settings.send_pdf ≠ "whole_images" →
      (historyPhase inpSingle.settings.history
        { pdf_images := none, pdf_uploaded_file_uri := none,
          history := none }).pdf_images = none) ∧
    (inpSingle.settings.send_pdf ≠ "whole_pdf" →
      (historyPhase inpSingle.settings.history
        { pdf_images := none, pdf_uploaded_file_uri := none,
          history := none }).pdf_uploaded_file_uri = none) ∧
    ¬((historyPhase inpSingle.settings.history
        { pdf_images := none, pdf_uploaded_file_uri := none,
          history := none }).pdf_images ≠ none ∧
      (historyPhase inpSingle.settings.history
        { pdf_images := none, pdf_uploaded_file_uri := none,
          history := none }).pdf_uploaded_file_uri ≠ none) ∧
    (inpSingle.settings.send_pdf = "whole_images" →
      optListPyTruthy (some ["i"]) = false → Ev.extractPages ∈ ([] : List Ev)) ∧
    (inpSingle.settings.send_pdf = "whole_pdf" →
      optJPyTruthy none = false → Ev.uploadPdf ∈ ([] : List Ev))) ∧
    ((inpImages.settings.send_pdf ≠ "whole_images" →
      (historyPhase inpImages.settings.history
        { pdf_images := some ["i"], pdf_uploaded_file_uri := none,
          history := none }).pdf_images = none) ∧
    (inpImages.settings.send_pdf ≠ "whole_pdf" →
      (historyPhase inpImages.settings.history
        { pdf_images := some ["i"], pdf_uploaded_file_uri := none,
          history := none }).pdf_uploaded_file_uri = none) ∧
    ¬((historyPhase inpImages.settings.history
        { pdf_images := some ["i"], pdf_uploaded_file_uri := none,
          history := none }).pdf_images ≠ none ∧
      (historyPhase inpImages.settings.history
        { pdf_images := some ["i"], pdf_uploaded_file_uri := none,
          history := none }).pdf_uploaded_file_uri ≠ none) ∧
    (inpImages.settings.send_pdf = "whole_images" →
      optListPyTruthy (none : Option (List String)) = false →
      Ev.extractPages ∈ [Ev.extractPages]) ∧
    (inpImages.settings.send_pdf = "whole_pdf" →
      optJPyTruthy none = false → Ev.uploadPdf ∈ ([] : List Ev))) := by
  constructor
  · exact C7_theorem worldKeyed inpSingle ⟨some ["i"], none, none⟩
      ⟨none, none, none⟩ ⟨none, none, none⟩ [] [] rfl rfl
  · exact C7_theorem worldKeyed inpImages RCState.init
      ⟨some ["i"], none, none⟩ ⟨some ["i"], none, none⟩ [Ev.extractPages] [] rfl rfl

/-- Accumulator lemma for C8: under history-enabled inputs whose sends
all succeed, the final history is the starting entries extended by one
user turn and one model turn per send. -/
theorem runSends_all_success_hist (w : World) (inps : List SendInput) (st : RCState)
    (hh : ∀ i ∈ inps, i.settings.history = true)
    (hsuc : ∀ o ∈ (runSends w inps st).2.2, ∃ q a, o = Outcome.success q a) :
    ∃ qas : List (String × String),
      (runSends w inps st).2.2 = qas.map (fun p => Outcome.success p.1 p.2) ∧
      qas.length = inps.length ∧
      (runSends w inps st).1.history
        = if inps.isEmpty then st.history
          else some (histBase st.history ++ turnsOf qas) := by
  induction inps generalizing st with
  | nil => exact ⟨[], rfl, rfl, rfl⟩
  | cons i rest ih =>
    rcases hs1 : sendStep w i st with ⟨st1, tr1, out1⟩
    rcases hr : runSends w rest st1 with ⟨st2, tr2, outs⟩
    have houts : (runSends w (i :: rest) st).2.2 = out1 :: outs := by
      unfold runSends
      simp only [hs1, hr]
    have hstf : (runSends w (i :: rest) st).1 = st2 := by
      unfold runSends
      simp only [hs1, hr]
    obtain ⟨q, a, hqa⟩ := hsuc out1 (by rw [houts]; exact List.mem_cons_self _ _)
    have hsuc1 : (sendStep w i st).2.2 = .success q a := by
      rw [hs1]
      exact hqa
    have hist1 : st1.history
        = some (histBase st.history ++ [⟨"user", q⟩, ⟨"model", a⟩]) := by
      have := sendStep_hist_success w i st q a (hh i (List.mem_cons_self i rest)) hsuc1
      rw [hs1] at this
      exact this
    have hhrest : ∀ j ∈ rest, j.settings.history = true :=
      fun j hj => hh j (List.mem_cons_of_mem i hj)
    have hsucrest : ∀ o ∈ (runSends w rest st1).2.2, ∃ q2 a2, o = Outcome.success q2 a2 := by
      intro o ho
      apply hsuc
      rw [houts]
      rw [hr] at ho
      exact List.mem_cons_of_mem out1 ho
    obtain ⟨qas, hmap, hlen, hhist⟩ := ih st1 hhrest hsucrest
    rw [hr] at hmap hhist
    have hmap2 : outs = List.map (fun p => Outcome.success p.1 p.2) qas := hmap
    have hhist2 : st2.history
        = if rest.isEmpty = true then st1.history
          else some (histBase st1.history ++ turnsOf qas) := hhist
    refine ⟨(q, a) :: qas, ?_, ?_, ?_⟩
    · rw [houts, hqa, hmap2]
      rfl
    · simp [List.length_cons, hlen]
    · rw [hstf]
      have hne : (i :: rest).isEmpty = false := rfl
      rw [hne]
      simp only [Bool.false_eq_true, if_false]
      cases rest with
      | nil =>
        have hq0 : qas = [] := List.length_eq_zero.mp (by rw [hlen]; rfl)
        subst hq0
        simp only [List.isEmpty_nil, if_true] at hhist2
        rw [hhist2, hist1]
        show some (histBase st.history ++ [Turn.mk "user" q, Turn.mk "model" a])
          = some (histBase st.history ++ turnsOf [(q, a)])
        have : turnsOf [(q, a)] = [Turn.mk "user" q, Turn.mk "model" a] := by
          simp [turnsOf]
        rw [this]
      | cons j rest2 =>
        have hne2 : (j :: rest2).isEmpty = false := rfl
        rw [hne2] at hhist2
        simp only [Bool.false_eq_true, if_false] at hhist2
        rw [hhist2, hist1]
        show some (histBase (some (histBase st.history ++ [Turn.mk "user" q, Turn.mk "model" a]))
            ++ turnsOf qas)
          = some (histBase st.history ++ turnsOf ((q, a) :: qas))
        have hb : histBase (some (histBase st.history ++ [Turn.mk "user" q, Turn.mk "model" a]))
            = histBase st.history ++ [Turn.mk "user" q, Turn.mk "model" a] := rfl
        rw [hb]
        have ht : turnsOf ((q, a) :: qas)
            = [Turn.mk "user" q, Turn.mk "model" a] ++ turnsOf qas := by
          simp [turnsOf]
        rw [ht, List.append_assoc]

/-- C8: confirmed.  With history enabled throughout, N successful sends
leave the history holding exactly the 2N turns user q1, model a1, ...,
user qN, model aN in chronological order (turnsOf makes the strict
user/model alternation explicit); a send with history disabled discards
the history whenever the send does not die in an uncaught exception;
and a send with history enabled starting from no history initializes a
fresh empty history even when the send fails. -/
theorem C8_theorem :
    (∀ (w : World) (inps : List SendInput),
      (∀ i ∈ inps, i.settings.history = true) →
      (∀ o ∈ (runSends w inps RCState.init).2.2, ∃ q a, o = Outcome.success q a) →
      ∃ qas : List (String × String),
        (runSends w inps RCState.init).2.2 = qas.map (fun p => Outcome.success p.1 p.2) ∧
        qas.length = inps.length ∧
        histBase (runSends w inps RCState.init).1.history = turnsOf qas ∧
        (turnsOf qas).length = 2 * inps.length) ∧
    (∀ (w : World) (inp : SendInput) (st : RCState),
      inp.settings.history = false → (sendStep w inp st).2.2.isUncaught = false →
      (sendStep w inp st).1.history = none) ∧
    (∀ (w : World) (inp : SendInput) (st : RCState) (m : String),
      inp.settings.history = true → st.history = none →
      (sendStep w inp st).2.2 = .renderedError m →
      (sendStep w inp st).1.history = some []) := by
  refine ⟨?_, sendStep_hist_disabled, ?_⟩
  · intro w inps hh hsuc
    obtain ⟨qas, hmap, hlen, hhist⟩ := runSends_all_success_hist w inps RCState.init hh hsuc
    refine ⟨qas, hmap, hlen, ?_, ?_⟩
    · cases inps with
      | nil =>
        have : qas = [] := List.length_eq_zero.mp (by rw [hlen]; rfl)
        subst this
        simp only [List.isEmpty_nil, if_true] at hhist
        rw [hhist]
        rfl
      | cons i rest =>
        have hne : (i :: rest).isEmpty = false := rfl
        rw [hne] at hhist
        simp only [Bool.false_eq_true, if_false] at hhist
        rw [hhist]
        rfl
    · rw [turnsOf_length, hlen]
  · intro w inp st m hh hnone hs
    have := sendStep_hist_rendered w inp st m hh hs
    rw [this, hnone]
    rfl

/-- C8 witness: one successful history-enabled send yields the two
turns; a history-disabled send leaves None; a failing history-enabled
send from a fresh state initializes the empty history. -/
theorem C8_theorem_witness :
    (∃ qas : List (String × String),
      (runSends worldKeyed [inpFalseHist] RCState.init).2.2
        = qas.map (fun p => Outcome.success p.1 p.2) ∧
      qas.length = [inpFalseHist].length ∧
      histBase (runSends worldKeyed [inpFalseHist] RCState.init).1.history = turnsOf qas ∧
      (turnsOf qas).length = 2 * [inpFalseHist].length) ∧
    (sendStep worldKeyed inpFalse RCState.init).1.history = none ∧
    (sendStep worldKeyed inpFalseHistFail RCState.init).1.history = some [] := by
  refine ⟨?_, ?_, ?_⟩
  · refine C8_theorem.1 worldKeyed [inpFalseHist] ?_ ?_
    · intro i hi
      rw [List.mem_singleton] at hi
      subst hi
      rfl
    · intro o ho
      have : (runSends worldKeyed [inpFalseHist] RCState.init).2.2
          = [Outcome.success "q" "hi"] := rfl
      rw [this, List.mem_singleton] at ho
      exact ⟨"q", "hi", ho⟩
  · exact C8_theorem.2.1 worldKeyed inpFalse RCState.init rfl rfl
  · exact C8_theorem.2.2 worldKeyed inpFalseHistFail RCState.init
      "ERROR httpx.HTTPError httpx request error" rfl rfl rfl

/-- C9 (amended): the failure handler itself mutates nothing — a send
that ends in a rendered error leaves the session state exactly as the
pre-dispatch cache and history adjustment left it, and in particular
history entries present before the send survive it unchanged; but that
adjustment runs before dispatch, so a failing send may still have
populated or cleared the caches and initialized or discarded the
history container on its way to the failure. -/
theorem C9_amended :
    ∀ (w : World) (inp : SendInput) (st : RCState) (m : String),
      (sendStep w inp st).2.2 = .renderedError m →
      ((sendStep w inp st).1 = adjustedState w inp st ∧
       (∀ hs, inp.settings.history = true → st.history = some hs →
         (sendStep w inp st).1.history = some hs)) := by
  intro w inp st m hs
  constructor
  · rcases h1 : imagesPhase w inp.settings.send_pdf st with ⟨st1, tr1, e1⟩
    rcases e1 with _ | m1
    · rcases h2 : uploadPhase w inp st1 with ⟨st2, tr2, e2⟩
      rcases e2 with _ | m2
      · have e1p : (imagesPhase w inp.settings.send_pdf st).1 = st1 := by rw [h1]
        have e2p : (uploadPhase w inp st1).1 = st2 := by rw [h2]
        have hadj : adjustedState w inp st = historyPhase inp.settings.history st2 := by
          unfold adjustedState
          rw [e1p, e2p]
        have heq := sendStep_eq_phases w inp st st1 st2 tr1 tr2 h1 h2
        rcases hw : (workerOf inp (historyPhase inp.settings.history st2)).run
            w.env inp.genResp with ⟨out, tr3⟩
        rw [heq, hw] at hs ⊢
        cases out with
        | responded q t => simp at hs
        | errored m2 => exact hadj.symm
        | crashed m2 => simp at hs
      · have hstep : sendStep w inp st = (st2, tr1 ++ tr2, .uncaught m2) := by
          unfold sendStep
          simp only [h1]
          simp only [h2]
        rw [hstep] at hs
        simp at hs
    · have hstep : sendStep w inp st = (st1, tr1, .uncaught m1) := by
        unfold sendStep
        simp only [h1]
      rw [hstep] at hs
      simp at hs
  · intro hsl hh hsome
    rw [sendStep_hist_rendered w inp st m hh hs, hsome]
    rfl

/-- C9 amended witness: a history-enabled send that fails with a
transport error leaves the state exactly at the adjusted state and
keeps the two prior history entries. -/
theorem C9_amended_witness :
    (sendStep worldKeyed inpFalseHistFail stPrior).1
        = adjustedState worldKeyed inpFalseHistFail stPrior ∧
    (sendStep worldKeyed inpFalseHistFail stPrior).1.history
        = some [⟨"user", "x"⟩, ⟨"model", "y"⟩] := by
  refine ⟨(C9_amended worldKeyed inpFalseHistFail stPrior
      "ERROR httpx.HTTPError httpx request error" rfl).1, ?_⟩
  exact (C9_amended worldKeyed inpFalseHistFail stPrior
    "ERROR httpx.HTTPError httpx request error" rfl).2
    [⟨"user", "x"⟩, ⟨"model", "y"⟩] rfl rfl

/-- C10: confirmed.  The send_pdf field of the settings document accepts
exactly the four strings whole_images, whole_pdf, single_page and false
and rejects every non-string JSON value, in particular the boolean
false; under single_page or false the adjustment clears both caches,
the request carries no document-context part (only the text part), and
the worker selects the without-PDF system prompt. -/
theorem C10_theorem :
    (∀ v : JValue, sendPdfAccepted v = true ↔
      (v = .str "whole_images" ∨ v = .str "whole_pdf" ∨
       v = .str "single_page" ∨ v = .str "false")) ∧
    sendPdfAccepted (.bool false) = false ∧
    (∀ (w : World) (inp : SendInput) (st : RCState),
      inp.settings.send_pdf = "single_page" ∨ inp.settings.send_pdf = "false" →
        (adjustedState w inp st).pdf_images = none ∧
        (adjustedState w inp st).pdf_uploaded_file_uri = none ∧
        systemPromptFor inp.settings = inp.settings.system_prompt_no_whole_pdf) ∧
    (∀ q : String, currentParts q none none = [textPart q]) := by
  refine ⟨?_, rfl, ?_, fun q => rfl⟩
  · intro v
    cases v <;> simp [sendPdfAccepted, List.contains]
  · intro w inp st hdisj
    have hi : inp.settings.send_pdf ≠ "whole_images" := by
      rcases hdisj with h | h <;> rw [h] <;> decide
    have hp : inp.settings.send_pdf ≠ "whole_pdf" := by
      rcases hdisj with h | h <;> rw [h] <;> decide
    have h1 := imagesPhase_eq_of_ne w inp.settings.send_pdf st hi
    have h2 := uploadPhase_eq_of_ne w inp
      (imagesPhase w inp.settings.send_pdf st).1 hp
    refine ⟨?_, ?_, ?_⟩
    · show (adjustedState w inp st).pdf_images = none
      unfold adjustedState
      rw [historyPhase_pdf_images, uploadPhase_pdf_images, h1]
    · show (adjustedState w inp st).pdf_uploaded_file_uri = none
      unfold adjustedState
      rw [historyPhase_pdf_uri, h2]
    · unfold systemPromptFor
      rcases hdisj with h | h <;> rw [h] <;> rfl

/-- C10 witness: the behavioral part at the single_page strategy. -/
theorem C10_theorem_witness :
    (inpSingle.settings.send_pdf = "single_page" ∨
      inpSingle.settings.send_pdf = "false") ∧
    ((adjustedState worldKeyed inpSingle RCState.init).pdf_images = none ∧
      (adjustedState worldKeyed inpSingle RCState.init).pdf_uploaded_file_uri = none ∧
      systemPromptFor inpSingle.settings
        = inpSingle.settings.system_prompt_no_whole_pdf) := by
  exact ⟨Or.inl rfl, C10_theorem.2.2.1 worldKeyed inpSingle RCState.init (Or.inl rfl)⟩

end ReaderCo
